import Mathlib

/-!
Verification development for the sds-lvm repository.

The repository has three source files:
* a StorageClass lifecycle reconciler (`local-storage-class-controller`),
* two generations of the CSI controller service
  (`sds-local-volume-csi/src/driver/controller.go` and
  `sds-lvm-csi/driver/controller.go`).

This file shallowly embeds the control flow of those files.  External
collaborators (the Kubernetes client, the `utils` helper package, yaml
codecs) are modelled at their interface: their results are inputs
(environment/oracle records), and fallible store writes are modelled by
success flags.  Sizes are modelled as `Int` (Go `int64` resource
quantities; overflow is not relevant at realistic volume sizes), and the
encoded volume-group parameter blob of a storage class is modelled by its
decode result (`Option (List LscLVG)`, `none` = undecodable yaml).
-/

deriving instance DecidableEq for Except

namespace SdsLvm

/-! ## Substring helper (for claims about error/validation messages) -/

/-- Is `p` a prefix of `l` (character lists)? -/
def isPrefOf : List Char → List Char → Bool
  | [], _ => true
  | _ :: _, [] => false
  | a :: as, b :: bs => a == b && isPrefOf as bs

/-- Does `sub` occur contiguously inside `l`? -/
def containsSub (sub : List Char) : List Char → Bool
  | [] => sub.isEmpty
  | c :: rest => isPrefOf sub (c :: rest) || containsSub sub rest

/-- The message `msg` mentions `sub` (contains it as a substring). -/
def mentions (msg sub : String) : Prop := containsSub sub.data msg.data = true

instance (msg sub : String) : Decidable (mentions msg sub) := by
  unfold mentions; infer_instance

/-! ## Reconciler constants (from the controller source) -/

def LocalStorageClassProvisioner : String := "local.csi.storage.deckhouse.io"
def LocalStorageClassFinalizerName : String := "localstorageclass.storage.deckhouse.io"
def Thin : String := "Thin"
def Thick : String := "Thick"
def FailedStatusPhase : String := "Failed"
def CreatedStatusPhase : String := "Created"

/-! ## Reconciler data model -/

/-- `LocalStorageClassLVG.Thin` — thin pool binding of one volume group. -/
structure LscThin where
  poolName : String
  deriving DecidableEq

/-- One volume-group binding of a LocalStorageClass spec
(`v1alpha1.LocalStorageClassLVG`). -/
structure LscLVG where
  name : String
  thin : Option LscThin
  deriving DecidableEq

/-- The `Spec.LVM` block of a LocalStorageClass. -/
structure LscLvm where
  typ : String
  lvgs : List LscLVG
  deriving DecidableEq

/-- `LocalStorageClassStatus`. -/
structure LscStatus where
  phase : String
  reason : String
  deriving DecidableEq

/-- A `LocalStorageClass` resource.  `lvm = none` models a nil
`Spec.LVM` pointer, `status = none` a nil `Status` pointer, and
`deletionTimestamp.isSome` a set deletion marker. -/
structure Lsc where
  name : String
  deletionTimestamp : Option Nat
  finalizers : List String
  lvm : Option LscLvm
  status : Option LscStatus
  deriving DecidableEq

/-- A platform `StorageClass` object.  `lvgParams` is the decode result of
the `lvm-volume-groups` parameter blob (`none` models undecodable yaml;
the yaml marshal/unmarshal round trip is modelled as the identity). -/
structure SC where
  name : String
  provisioner : String
  lvgParams : Option (List LscLVG)
  finalizers : List String
  deriving DecidableEq

/-- A live `LvmVolumeGroup` resource as used by validation: its name, the
names of the nodes in its status, and the names of its status thin pools. -/
structure Lvg where
  name : String
  nodes : List String
  thinPools : List String
  deriving DecidableEq

/-! ## Validation engine (`validateLocalStorageClass` and helpers) -/

/-- `findUnmanagedDuplicatedSC`: first storage class with the spec's name
but a different provisioner; `""` if none. -/
def findUnmanagedDuplicatedSC (scs : List SC) (lsc : Lsc) : String :=
  match scs.find? (fun sc => sc.name == lsc.name && sc.provisioner != LocalStorageClassProvisioner) with
  | some sc => sc.name
  | none => ""

/-- `findAnyThinPool`: bindings that configure a thin pool (bad for Thick). -/
def findAnyThinPool (lvgs : List LscLVG) : List String :=
  (lvgs.filter (fun g => g.thin.isSome)).map (fun g => g.name)

/-- `findNonexistentLVGs`: bound volume-group names with no live resource. -/
def findNonexistentLVGs (lvgList : List Lvg) (lvgs : List LscLVG) : List String :=
  (lvgs.filter (fun g => !(lvgList.any (fun l => l.name == g.name)))).map (fun g => g.name)

/-- `findNonexistentThinPools`: bindings whose thin pool is missing from the
bound group's status (a binding with no thin pool at all also counts). -/
def findNonexistentThinPools (lvgList : List Lvg) (lvgs : List LscLVG) : List String :=
  lvgs.filterMap (fun g =>
    match g.thin with
    | none => some g.name
    | some t =>
      let pools := (Option.map (fun l => l.thinPools) (lvgList.find? (fun l => l.name == g.name))).getD []
      if pools.any (fun p => p == t.poolName) then none else some g.name)

/-- Append `lvgName` to the entry of `node` in an association list of
node → used volume-group names, creating the entry if absent. -/
def addNodeLvg (m : List (String × List String)) (node lvgName : String) :
    List (String × List String) :=
  match m with
  | [] => [(node, [lvgName])]
  | (n, ls) :: rest =>
    if n == node then (n, ls ++ [lvgName]) :: rest else (n, ls) :: addNodeLvg rest node lvgName

/-- node → names of bound volume groups living on it (deterministic
first-appearance order standing in for Go's map iteration). -/
def nodesWithLVGs (lvgList : List Lvg) (used : List String) : List (String × List String) :=
  lvgList.foldl (fun m lvg =>
    if used.any (fun u => u == lvg.name) then
      lvg.nodes.foldl (fun m node => addNodeLvg m node lvg.name) m
    else m) []

/-- One `|node: lvg1,lvg2,` entry of the same-node validation message. -/
def sameNodeEntryMsg (node : String) (names : List String) : String :=
  "|" ++ node ++ ": " ++ String.join (names.map (fun n => n ++ ","))

/-- `findLVMVolumeGroupsOnTheSameNode`: message entries for each node used
by more than one bound volume group. -/
def findLVMVolumeGroupsOnTheSameNode (lvgList : List Lvg) (lvgs : List LscLVG) : List String :=
  ((nodesWithLVGs lvgList (lvgs.map (fun g => g.name))).filter (fun e => e.2.length > 1)).map
    (fun e => sameNodeEntryMsg e.1 e.2)

def collisionReason (name : String) : String :=
  "There already is a storage class with the same name: " ++ name ++
    " but it is not managed by the LocalStorageClass controller\n"

def sameNodeReason (entries : List String) : String :=
  "Some LVMVolumeGroups use the same node (|node: LVG names): " ++ String.join entries ++ "\n"

def nonexistentLVGsReason (names : List String) : String :=
  "Some of selected LVMVolumeGroups are nonexistent, LVG names: " ++
    String.intercalate "," names ++ "\n"

def nonexistentTpReason (names : List String) : String :=
  "Some LVMVolumeGroups use nonexistent thin pools, LVG names: " ++
    String.intercalate "," names ++ "\n"

def thickTpReason (names : List String) : String :=
  "Some LVMVolumeGroups use thin pools though device type is Thick, LVG names: " ++
    String.intercalate "," names ++ "\n"

def noTypeReason (name : String) : String :=
  "Unable to identify a type of LocalStorageClass " ++ name

/-- `validateLocalStorageClass`.  The live volume-group list is passed in
(the store read is modelled as successful; its failure branch only
surfaces the read error).  Every check is evaluated, the boolean is the
conjunction of the checks, and the message concatenates the failing
checks' reasons in source order. -/
def validateLocalStorageClass (scList : List SC) (lvgList : List Lvg) (lsc : Lsc) :
    Bool × String :=
  let unmanaged := findUnmanagedDuplicatedSC scList lsc
  let v0 := unmanaged == ""
  let m0 := if unmanaged != "" then collisionReason unmanaged else ""
  match lsc.lvm with
  | some lvm =>
    let same := findLVMVolumeGroupsOnTheSameNode lvgList lvm.lvgs
    let v1 := same.isEmpty
    let m1 := if !same.isEmpty then sameNodeReason same else ""
    let nonex := findNonexistentLVGs lvgList lvm.lvgs
    let v2 := nonex.isEmpty
    let m2 := if !nonex.isEmpty then nonexistentLVGsReason nonex else ""
    let tp :=
      if lvm.typ == Thin then
        let bad := findNonexistentThinPools lvgList lvm.lvgs
        (bad.isEmpty, if !bad.isEmpty then nonexistentTpReason bad else "")
      else
        let bad := findAnyThinPool lvm.lvgs
        (bad.isEmpty, if !bad.isEmpty then thickTpReason bad else "")
    (v0 && v1 && v2 && tp.1, m0 ++ m1 ++ m2 ++ tp.2)
  | none => (false, m0 ++ noTypeReason lsc.name)

/-! ## Diff engine (`hasLVGDiff`) and event classification -/

/-- Failure modes of `hasLVGDiff`.  `decodeErr` is a yaml decode failure of
the storage-class parameter blob; `bothThinNil` is the explicit error when
neither side configures a thin pool for a Thin-type spec; `specThinNil`
models the nil-pointer dereference the Go code performs when only the
spec side lacks a thin pool; `lvmNil` models dereferencing a nil
`Spec.LVM`. -/
inductive DiffErr
  | decodeErr
  | bothThinNil
  | specThinNil
  | lvmNil
  deriving DecidableEq

/-- The positional comparison loop of `hasLVGDiff` (runs over lists of
equal length; the loop body in source order). -/
def lvgPairDiff (typ : String) : List LscLVG → List LscLVG → Except DiffErr Bool
  | c :: cs, d :: ds =>
    if c.name ≠ d.name then .ok true
    else if typ = Thin then
      match c.thin, d.thin with
      | none, some _ => .ok true
      | none, none => .error .bothThinNil
      | some _, none => .error .specThinNil
      | some ct, some dt =>
        if ct.poolName ≠ dt.poolName then .ok true else lvgPairDiff typ cs ds
    else lvgPairDiff typ cs ds
  | _, _ => .ok false

/-- `hasLVGDiff sc lsc`: positional diff between the storage class's decoded
volume-group parameter and the spec's bindings. -/
def hasLVGDiff (sc : SC) (lsc : Lsc) : Except DiffErr Bool :=
  match sc.lvgParams with
  | none => .error .decodeErr
  | some cur =>
    match lsc.lvm with
    | none => .error .lvmNil
    | some lvm =>
      if cur.length ≠ lvm.lvgs.length then .ok true
      else lvgPairDiff lvm.typ cur lvm.lvgs

/-- Classification result: Create / Update / Delete / no-op. -/
inductive ReconcileOp
  | create
  | update
  | delete
  | skip
  deriving DecidableEq

/-- Errors surfaced by classification. -/
inductive IdErr
  | diff (e : DiffErr)
  | wrongProvisioner
  | scMissing
  deriving DecidableEq

/-- `shouldReconcileByDeleteFunc`: deletion timestamp set. -/
def shouldReconcileByDeleteFunc (lsc : Lsc) : Bool :=
  lsc.deletionTimestamp.isSome

/-- `shouldReconcileByCreateFunc`: no deletion marker and no same-named
storage class paired with a recorded status. -/
def shouldReconcileByCreateFunc (scs : List SC) (lsc : Lsc) : Bool :=
  if lsc.deletionTimestamp.isSome then false
  else !(scs.any (fun sc => sc.name == lsc.name && lsc.status.isSome))

/-- `shouldReconcileByUpdateFunc`.  The Go code reads `lsc.Status.Phase`
without a nil check; through `identifyReconcileFunc` that line is only
reachable with a non-nil status, and the `none` branch here is the
unreachable stand-in. -/
def shouldReconcileByUpdateFunc (scs : List SC) (lsc : Lsc) : Except IdErr Bool :=
  if lsc.deletionTimestamp.isSome then .ok false
  else
    match scs.find? (fun sc => sc.name == lsc.name) with
    | some sc =>
      if sc.provisioner == LocalStorageClassProvisioner then
        match hasLVGDiff sc lsc with
        | .error e => .error (.diff e)
        | .ok true => .ok true
        | .ok false =>
          match lsc.status with
          | some st => if st.phase == FailedStatusPhase then .ok true else .ok false
          | none => .ok false
      else .error .wrongProvisioner
    | none => .error .scMissing

/-- `identifyReconcileFunc`: Delete, then Create, then Update, else no-op. -/
def identifyReconcileFunc (scs : List SC) (lsc : Lsc) : Except IdErr ReconcileOp :=
  if shouldReconcileByDeleteFunc lsc then .ok .delete
  else if shouldReconcileByCreateFunc scs lsc then .ok .create
  else
    match shouldReconcileByUpdateFunc scs lsc with
    | .error e => .error e
    | .ok true => .ok .update
    | .ok false => .ok .skip

/-! ## Reconcile state machine

The Kubernetes client is modelled by a cluster state (the live storage
classes, the live volume groups and the LocalStorageClass being
reconciled) plus an oracle of per-operation success flags: a failing
write leaves the store unchanged and surfaces an error, exactly like a
rejected `cl.Update`/`cl.Create`/`cl.Delete` call. -/

/-- Success flags for the four kinds of store writes the reconciler makes. -/
structure Oracle where
  lscUpdateOk : Bool
  scUpdateOk : Bool
  scCreateOk : Bool
  scDeleteOk : Bool
  deriving DecidableEq

/-- The store state threaded through one reconcile invocation. -/
structure Cluster where
  scs : List SC
  lvgs : List Lvg
  lsc : Lsc
  deriving DecidableEq

/-- `cl.Update` on the LocalStorageClass.  A failing call surfaces an
error carrying the store state at the failure (the write is rejected, the
store is unchanged), so that partial progress made by earlier writes of a
composite operation survives, as it does against a real store. -/
def clUpdateLSC (o : Oracle) (s : Cluster) (lsc : Lsc) : Except Cluster Cluster :=
  if o.lscUpdateOk then .ok { s with lsc := lsc } else .error s

/-- `cl.Update` on a StorageClass: replaces the same-named live object. -/
def clUpdateSC (o : Oracle) (s : Cluster) (sc : SC) : Except Cluster Cluster :=
  if o.scUpdateOk then
    .ok { s with scs := s.scs.map (fun t => if t.name == sc.name then sc else t) }
  else .error s

/-- `cl.Create` on a StorageClass. -/
def clCreateSC (o : Oracle) (s : Cluster) (sc : SC) : Except Cluster Cluster :=
  if o.scCreateOk then .ok { s with scs := s.scs ++ [sc] } else .error s

/-- `cl.Delete` on a StorageClass (deletion is by name). -/
def clDeleteSC (o : Oracle) (s : Cluster) (sc : SC) : Except Cluster Cluster :=
  if o.scDeleteOk then
    .ok { s with scs := s.scs.filter (fun t => !(t.name == sc.name)) }
  else .error s

/-- `addFinalizerIfNotExistsForLSC` (the update call is made even when the
finalizer is already present, as in the source). -/
def addFinalizerIfNotExistsForLSC (o : Oracle) (s : Cluster) : Except Cluster Cluster :=
  let lsc := s.lsc
  let lsc1 :=
    if lsc.finalizers.contains LocalStorageClassFinalizerName then lsc
    else { lsc with finalizers := lsc.finalizers ++ [LocalStorageClassFinalizerName] }
  clUpdateLSC o s lsc1

/-- `addFinalizerIfNotExistsForSC`. -/
def addFinalizerIfNotExistsForSC (o : Oracle) (s : Cluster) (sc : SC) : Except Cluster Cluster :=
  let sc1 :=
    if sc.finalizers.contains LocalStorageClassFinalizerName then sc
    else { sc with finalizers := sc.finalizers ++ [LocalStorageClassFinalizerName] }
  clUpdateSC o s sc1

/-- `removeLocalSCFinalizerIfExistsForLSC`: no store write when absent. -/
def removeLocalSCFinalizerIfExistsForLSC (o : Oracle) (s : Cluster) : Except Cluster Cluster :=
  if s.lsc.finalizers.contains LocalStorageClassFinalizerName then
    clUpdateLSC o s { s.lsc with finalizers := s.lsc.finalizers.erase LocalStorageClassFinalizerName }
  else .ok s

/-- `removeLocalSCFinalizerIfExistsForSC`. -/
def removeLocalSCFinalizerIfExistsForSC (o : Oracle) (s : Cluster) (sc : SC) : Except Cluster Cluster :=
  if sc.finalizers.contains LocalStorageClassFinalizerName then
    clUpdateSC o s { sc with finalizers := sc.finalizers.erase LocalStorageClassFinalizerName }
  else .ok s

/-- `updateLocalStorageClassPhase`: writes phase/reason into the status. -/
def updateLocalStorageClassPhase (o : Oracle) (s : Cluster) (phase reason : String) :
    Except Cluster Cluster :=
  clUpdateLSC o s { s.lsc with status := some ⟨phase, reason⟩ }

/-- Phase update whose failure is only logged by the caller. -/
def phaseOrKeep (o : Oracle) (s : Cluster) (phase reason : String) : Cluster :=
  match updateLocalStorageClassPhase o s phase reason with
  | .ok s1 => s1
  | .error sE => sE

/-- `deleteStorageClass`: refuses foreign provisioners, removes the
finalizer from the live object, then deletes it. -/
def deleteStorageClass (o : Oracle) (s : Cluster) (sc : SC) : Except Cluster Cluster :=
  if sc.provisioner != LocalStorageClassProvisioner then .error s
  else
    match removeLocalSCFinalizerIfExistsForSC o s sc with
    | .error e => .error e
    | .ok s1 => clDeleteSC o s1 sc

/-- `recreateStorageClass`: delete then create. -/
def recreateStorageClass (o : Oracle) (s : Cluster) (sc : SC) : Except Cluster Cluster :=
  match deleteStorageClass o s sc with
  | .error e => .error e
  | .ok s1 => clCreateSC o s1 sc

/-- `configureStorageClass`: builds the derived storage class from the
spec (fails on a nil `Spec.LVM`); marshalling the bindings into the
parameter blob is modelled by storing their decode result. -/
def configureStorageClass (lsc : Lsc) : Except Unit SC :=
  match lsc.lvm with
  | none => .error ()
  | some lvm =>
    .ok { name := lsc.name, provisioner := LocalStorageClassProvisioner,
          lvgParams := some lvm.lvgs, finalizers := [] }

/-- `createStorageClassIfNotExists` (checks the listed snapshot first). -/
def createStorageClassIfNotExists (o : Oracle) (scList : List SC) (s : Cluster) (sc : SC) :
    Except Cluster (Bool × Cluster) :=
  if scList.any (fun t => t.name == sc.name) then .ok (false, s)
  else
    match clCreateSC o s sc with
    | .error e => .error e
    | .ok s1 => .ok (true, s1)

/-- Shared tail of the create path: add the finalizer to the derived
storage class, then record phase Created. -/
def reconcileLSCCreateTail (o : Oracle) (s : Cluster) (sc : SC) :
    Bool × Option Unit × Cluster :=
  match addFinalizerIfNotExistsForSC o s sc with
  | .error sE => (true, some (), sE)
  | .ok s1 =>
    match updateLocalStorageClassPhase o s1 CreatedStatusPhase "" with
    | .error sE => (true, some (), sE)
    | .ok s2 => (false, none, s2)

/-- `reconcileLSCCreateFunc`.  Result: (should requeue, error?, state). -/
def reconcileLSCCreateFunc (o : Oracle) (s : Cluster) : Bool × Option Unit × Cluster :=
  match addFinalizerIfNotExistsForLSC o s with
  | .error sE => (true, some (), sE)
  | .ok s1 =>
    let vres := validateLocalStorageClass s1.scs s1.lvgs s1.lsc
    if !vres.1 then (true, some (), phaseOrKeep o s1 FailedStatusPhase vres.2)
    else
      match configureStorageClass s1.lsc with
      | .error _ =>
        match updateLocalStorageClassPhase o s1 FailedStatusPhase "configure" with
        | .error sE => (true, some (), sE)
        | .ok s2 => (false, some (), s2)
      | .ok sc =>
        match createStorageClassIfNotExists o s1.scs s1 sc with
        | .error sE =>
          match updateLocalStorageClassPhase o sE FailedStatusPhase "create" with
          | .error sE2 => (true, some (), sE2)
          | .ok s2 => (true, some (), s2)
        | .ok (created, s2) =>
          if created then reconcileLSCCreateTail o s2 sc
          else
            match hasLVGDiff sc s2.lsc with
            | .error _ => (true, some (), phaseOrKeep o s2 FailedStatusPhase "diff")
            | .ok true =>
              match recreateStorageClass o s2 sc with
              | .error sE => (true, some (), phaseOrKeep o sE FailedStatusPhase "recreate")
              | .ok s3 => reconcileLSCCreateTail o s3 sc
            | .ok false => reconcileLSCCreateTail o s2 sc

/-- Shared tail of the update path: record phase Created. -/
def reconcileLSCUpdateTail (o : Oracle) (s : Cluster) : Bool × Option Unit × Cluster :=
  match updateLocalStorageClassPhase o s CreatedStatusPhase "" with
  | .error sE => (true, some (), sE)
  | .ok s1 => (false, none, s1)

/-- `reconcileLSCUpdateFunc`. -/
def reconcileLSCUpdateFunc (o : Oracle) (s : Cluster) : Bool × Option Unit × Cluster :=
  let vres := validateLocalStorageClass s.scs s.lvgs s.lsc
  if !vres.1 then (true, some (), phaseOrKeep o s FailedStatusPhase vres.2)
  else
    match s.scs.find? (fun t => t.name == s.lsc.name) with
    | none => (true, some (), phaseOrKeep o s FailedStatusPhase "missing")
    | some sc =>
      match hasLVGDiff sc s.lsc with
      | .error _ => (true, some (), phaseOrKeep o s FailedStatusPhase "diff")
      | .ok hasDiff =>
        if hasDiff then
          match configureStorageClass s.lsc with
          | .error _ =>
            match updateLocalStorageClassPhase o s FailedStatusPhase "configure" with
            | .error sE => (true, some (), sE)
            | .ok s1 => (false, some (), s1)
          | .ok sc2 =>
            match recreateStorageClass o s sc2 with
            | .error sE => (true, some (), phaseOrKeep o sE FailedStatusPhase "recreate")
            | .ok s1 => reconcileLSCUpdateTail o s1
        else reconcileLSCUpdateTail o s

/-- Shared tail of the delete path: remove the spec's finalizer. -/
def reconcileLSCDeleteTail (o : Oracle) (s : Cluster) : Bool × Option Unit × Cluster :=
  match removeLocalSCFinalizerIfExistsForLSC o s with
  | .error sE => (true, some (), phaseOrKeep o sE FailedStatusPhase "finalizer")
  | .ok s1 => (false, none, s1)

/-- `reconcileLSCDeleteFunc`: delete the same-named derived storage class
when it is ours, skip it when foreign, then remove the spec's finalizer. -/
def reconcileLSCDeleteFunc (o : Oracle) (s : Cluster) : Bool × Option Unit × Cluster :=
  match s.scs.find? (fun t => t.name == s.lsc.name) with
  | some sc =>
    if sc.provisioner != LocalStorageClassProvisioner then reconcileLSCDeleteTail o s
    else
      match deleteStorageClass o s sc with
      | .error sE => (true, some (), phaseOrKeep o sE FailedStatusPhase "delete")
      | .ok s1 => reconcileLSCDeleteTail o s1
  | none => reconcileLSCDeleteTail o s

/-- `runEventReconcile`: classify, then dispatch. -/
def runEventReconcile (o : Oracle) (s : Cluster) : Bool × Option Unit × Cluster :=
  match identifyReconcileFunc s.scs s.lsc with
  | .error _ => (true, some (), s)
  | .ok .create => reconcileLSCCreateFunc o s
  | .ok .update => reconcileLSCUpdateFunc o s
  | .ok .delete => reconcileLSCDeleteFunc o s
  | .ok .skip => (false, none, s)

/-- The names of the live storage classes are pairwise distinct (the store
keys objects by name, so this always holds for a real listing). -/
def nodupNames (scs : List SC) : Prop := (scs.map (fun sc => sc.name)).Nodup

instance (scs : List SC) : Decidable (nodupNames scs) := by
  unfold nodupNames
  infer_instance

/-! ## CSI controller service

Both generations of the controller are embedded: `LocalCsi` is
`sds-local-volume-csi/src/driver/controller.go`, `LvmCsi` is
`sds-lvm-csi/driver/controller.go`.  The `utils` helpers they call are
not part of the given sources, so each helper's outcome is an input in an
environment record, and the side effects on LVMLogicalVolume resources
are recorded as an operation trace. -/

namespace Csi

/-- gRPC status codes used by the drivers (`codes.Unknown` is what a bare
`return nil, err` amounts to). -/
inductive Code
  | invalidArgument
  | internal
  | notFound
  | unknown
  deriving DecidableEq

/-- A gRPC error: status code plus human-readable detail. -/
structure GrpcErr where
  code : Code
  msg : String
  deriving DecidableEq

/-- LVMLogicalVolume side effects performed by a driver call. -/
inductive Op
  | createLLV (name : String)
  | deleteLLV (name : String)
  | updateLLVSize (name : String) (size : Int)
  deriving DecidableEq

/-- Outcome of `utils.CreateLVMLogicalVolume`. -/
inductive CreateOutcome
  | ok
  | alreadyExists
  | err (msg : String)
  deriving DecidableEq

/-- Did the create step fail with a fatal (non-AlreadyExists) error? -/
def createFailureOf : CreateOutcome → Option String
  | .err e => some e
  | _ => none

/-- Binding-mode / type constants.  Modelled from the spec: the constant
definitions live outside the given sources; the spec fixes the binding
modes as Immediate and WaitForFirstConsumer and the types as Thick/Thin. -/
def BindingModeI : String := "Immediate"
def BindingModeWFFC : String := "WaitForFirstConsumer"
def LLVTypeThin : String := "Thin"
def LLVTypeThick : String := "Thick"

/-- Go map read with the zero-value default. -/
def look (params : List (String × String)) (k : String) : String :=
  (Option.map (fun p => p.2) (params.find? (fun p => p.1 == k))).getD ""

/-- A CreateVolume request: name, presence of the capability descriptor,
required bytes, the parameter map, and the preferred topology segments. -/
structure CreateRequest where
  name : String
  hasCapabilities : Bool
  requiredBytes : Int
  params : List (String × String)
  preferredSegments : List (List (String × String))
  deriving DecidableEq

/-- The volume descriptor of a successful CreateVolume response. -/
structure Volume where
  capacityBytes : Int
  volumeId : String
  volumeContext : List (String × String)
  topologyNode : String
  deriving DecidableEq

/-- Message of the Immediate-mode capacity failure (sizes rendered as
integers standing in for quantity strings). -/
def capacityMsg (req free : Int) : String :=
  "requested size: " ++ toString req ++ " is greater than free space: " ++ toString free

/-- Message of the expand-path capacity failure. -/
def expandCapacityMsg (req free : Int) : String :=
  "requested size: " ++ toString req ++
    " is greater than the capacity of the LVMVolumeGroup: " ++ toString free

/-- An LVMLogicalVolume as read back by the expand path. -/
structure Llv where
  name : String
  ns : String
  lvgName : String
  typ : String
  specSize : Int
  actualSize : Int
  deriving DecidableEq

/-- Outcome of `utils.GetLVMLogicalVolume`. -/
inductive GetLlvRes
  | ok (llv : Llv)
  | notFound (msg : String)
  | err (msg : String)
  deriving DecidableEq

/-- A ControllerExpandVolume request. -/
structure ExpandRequest where
  volumeId : String
  requiredBytes : Int
  blockAccess : Bool
  deriving DecidableEq

/-- A successful ControllerExpandVolume response. -/
structure ExpandResponse where
  capacityBytes : Int
  nodeExpansionRequired : Bool
  deriving DecidableEq

/-- Helper outcomes consumed by ControllerExpandVolume.  `resizeDelta` is
the parsed fixed tolerance quantity; `lvgFreeSpace` is
`GetLVMVolumeGroupFreeSpace` (new driver), `lvgCapacity` is
`GetLVMVolumeGroupCapacity` (old driver). -/
structure ExpandEnv where
  getLlv : GetLlvRes
  getLvg : Except String Unit
  lvgFreeSpace : Int
  lvgCapacity : Except String Int
  updateErr : Option String
  waitRes : Except String Nat
  resizeDelta : Int
  deriving DecidableEq

/-- Modelled from the spec: `utils.AreSizesEqualWithinDelta` is not among
the given sources; the spec defines the comparator as
`|requested - actual| ≤ resizeDelta`. -/
def AreSizesEqualWithinDelta (a b delta : Int) : Bool :=
  decide (|a - b| ≤ delta)

end Csi

namespace LocalCsi

open Csi

/-- Parameter keys of the new driver (provisioner-prefixed, as in the
controller constants). -/
def TypeKey : String := "local.csi.storage.deckhouse.io/type"
def LvmTypeKey : String := "local.csi.storage.deckhouse.io/lvm-type"
def BindingModeKey : String := "local.csi.storage.deckhouse.io/volume-binding-mode"
def LvmVolumeGroupKey : String := "local.csi.storage.deckhouse.io/lvm-volume-groups"
/-- Topology key; exact value immaterial to the claims. -/
def TopologyKey : String := "topology.sds-local-volume-csi/node"
def SubPath : String := "subPath"
def VGNameKey : String := "vgname"
def ThinPoolNameKey : String := "thinPoolName"

/-- A storage-class LVMVolumeGroup as selected by `utils.SelectLVG`. -/
structure LvgRes where
  name : String
  actualVGNameOnTheNode : String
  deriving DecidableEq

/-- The LVMLogicalVolume spec built by `utils.GetLLVSpec`. -/
structure LLVSpecRes where
  typ : String
  thinPoolName : Option String
  deriving DecidableEq

/-- Helper outcomes consumed by the new driver's CreateVolume:
`scLVGs` is `GetStorageClassLVGsAndParameters`, `nodeMaxFree` is
`GetNodeWithMaxFreeSpace` (its error is only logged, the returned node
and free space are used regardless), `selectLVG` is `SelectLVG`,
`llvSpec` is `GetLLVSpec`. -/
structure CreateEnv where
  scLVGs : Except String Unit
  nodeMaxFree : String × Int
  selectLVG : Except String LvgRes
  llvSpec : LLVSpecRes
  createRes : CreateOutcome
  waitRes : Except String Nat
  deriving DecidableEq

/-- The step of CreateVolume that fixes the preferred node, including the
Immediate-mode Thick capacity check. -/
def pickNode (env : CreateEnv) (req : CreateRequest) : Except GrpcErr String :=
  let bindingMode := look req.params BindingModeKey
  if bindingMode == BindingModeI then
    if look req.params LvmTypeKey == LLVTypeThick && req.requiredBytes > env.nodeMaxFree.2 then
      .error ⟨.internal, capacityMsg req.requiredBytes env.nodeMaxFree.2⟩
    else .ok env.nodeMaxFree.1
  else if bindingMode == BindingModeWFFC then
    .ok (match req.preferredSegments with
         | seg :: _ => look seg TopologyKey
         | [] => "")
  else .ok ""

/-- `CreateVolume` of the new driver.  Returns the response or error and
the trace of LVMLogicalVolume operations performed. -/
def CreateVolume (env : CreateEnv) (req : CreateRequest) :
    Except GrpcErr Volume × List Op :=
  if look req.params TypeKey != "lvm" then
    (.error ⟨.invalidArgument, "Unsupported Storage Class type"⟩, [])
  else if req.name == "" then
    (.error ⟨.invalidArgument, "Volume Name cannot be empty"⟩, [])
  else if !req.hasCapabilities then
    (.error ⟨.invalidArgument, "Volume Capability cannot de empty"⟩, [])
  else if look req.params LvmVolumeGroupKey == "" then
    (.error ⟨.invalidArgument, "no LVMVolumeGroups specified in a storage class's parameters"⟩, [])
  else
    match env.scLVGs with
    | .error e => (.error ⟨.internal, e⟩, [])
    | .ok _ =>
      match pickNode env req with
      | .error e => (.error e, [])
      | .ok preferredNode =>
        match env.selectLVG with
        | .error e => (.error ⟨.internal, e⟩, [])
        | .ok lvg =>
          match createFailureOf env.createRes with
          | some e => (.error ⟨.unknown, e⟩, [Op.createLLV req.name])
          | none =>
            match env.waitRes with
            | .error e => (.error ⟨.unknown, e⟩, [Op.createLLV req.name, Op.deleteLLV req.name])
            | .ok _ =>
              let ctx := req.params ++
                [(SubPath, req.name), (VGNameKey, lvg.actualVGNameOnTheNode),
                 (ThinPoolNameKey,
                  if env.llvSpec.typ == LLVTypeThin then env.llvSpec.thinPoolName.getD "" else "")]
              (.ok ⟨req.requiredBytes, req.name, ctx, preferredNode⟩, [Op.createLLV req.name])

/-- `ControllerExpandVolume` of the new driver. -/
def ControllerExpandVolume (env : ExpandEnv) (req : ExpandRequest) :
    Except GrpcErr ExpandResponse × List Op :=
  if req.volumeId == "" then
    (.error ⟨.invalidArgument, "Volume id cannot be empty"⟩, [])
  else
    match env.getLlv with
    | .notFound m => (.error ⟨.internal, "error getting LVMLogicalVolume: " ++ m⟩, [])
    | .err m => (.error ⟨.internal, "error getting LVMLogicalVolume: " ++ m⟩, [])
    | .ok llv =>
      let nodeExp := !req.blockAccess
      if llv.actualSize > req.requiredBytes + env.resizeDelta
          || AreSizesEqualWithinDelta req.requiredBytes llv.actualSize env.resizeDelta then
        (.ok ⟨llv.actualSize, nodeExp⟩, [])
      else
        match env.getLvg with
        | .error m => (.error ⟨.internal, "error getting LVMVolumeGroup: " ++ m⟩, [])
        | .ok _ =>
          if llv.typ == LLVTypeThick && env.lvgFreeSpace < req.requiredBytes - llv.actualSize then
            (.error ⟨.internal, expandCapacityMsg req.requiredBytes env.lvgFreeSpace⟩, [])
          else
            match env.updateErr with
            | some m => (.error ⟨.internal, "error updating LVMLogicalVolume: " ++ m⟩,
                         [Op.updateLLVSize req.volumeId req.requiredBytes])
            | none =>
              match env.waitRes with
              | .error m => (.error ⟨.unknown, m⟩, [Op.updateLLVSize req.volumeId req.requiredBytes])
              | .ok _ => (.ok ⟨req.requiredBytes, nodeExp⟩,
                          [Op.updateLLVSize req.volumeId req.requiredBytes])

end LocalCsi

namespace LvmCsi

open Csi

/-- Parameter keys of the old driver (constant definitions are outside the
given sources; exact values immaterial to the claims). -/
def lvmBindingModeKey : String := "lvm-binding-mode"
def lvmTypeKey : String := "lvm-type"
def lvmVolumeGroupKey : String := "lvm-volume-groups"
def topologyKey : String := "topology.sds-lvm-csi/node"
def subPath : String := "subPath"
def vgNameKey : String := "vgname"

/-- The old driver's `switch` on the binding-mode parameter: unknown
values leave the variable empty. -/
def normBindingMode (p : String) : String :=
  if p == BindingModeWFFC then BindingModeWFFC
  else if p == BindingModeI then BindingModeI
  else ""

/-- Helper outcomes consumed by the old driver's CreateVolume.
`GetNodeMaxFreeVGSize` and `GetLVMVolumeGroupParams` errors are only
logged (the returned values are used regardless), as in the source. -/
structure CreateEnv where
  nodeMaxFree : String × Int
  lvgParams : String × String
  createRes : CreateOutcome
  waitRes : Except String Nat
  deriving DecidableEq

/-- The old driver's preferred node / Immediate capacity check (the check
applies to every volume type). -/
def pickNode (env : CreateEnv) (req : CreateRequest) : Except GrpcErr String :=
  let bindingMode := normBindingMode (look req.params lvmBindingModeKey)
  if bindingMode == BindingModeI then
    if req.requiredBytes > env.nodeMaxFree.2 then
      .error ⟨.internal, capacityMsg req.requiredBytes env.nodeMaxFree.2⟩
    else .ok env.nodeMaxFree.1
  else if bindingMode == BindingModeWFFC then
    .ok (match req.preferredSegments with
         | seg :: _ => look seg topologyKey
         | [] => "")
  else .ok ""

/-- `CreateVolume` of the old driver.  On a poll failure it returns the
error without deleting the just-created LVMLogicalVolume. -/
def CreateVolume (env : CreateEnv) (req : CreateRequest) :
    Except GrpcErr Volume × List Op :=
  if req.name == "" then
    (.error ⟨.invalidArgument, "Volume Name cannot be empty"⟩, [])
  else if !req.hasCapabilities then
    (.error ⟨.invalidArgument, "Volume Capability cannot de empty"⟩, [])
  else
    match pickNode env req with
    | .error e => (.error e, [])
    | .ok preferredNode =>
      match createFailureOf env.createRes with
      | some e => (.error ⟨.unknown, e⟩, [Op.createLLV req.name])
      | none =>
        match env.waitRes with
        | .error e => (.error ⟨.unknown, e⟩, [Op.createLLV req.name])
        | .ok _ =>
          let ctx := req.params ++ [(subPath, req.name), (vgNameKey, env.lvgParams.2)]
          (.ok ⟨req.requiredBytes, req.name, ctx, preferredNode⟩, [Op.createLLV req.name])

/-- `ControllerExpandVolume` of the old driver: `NodeExpansionRequired` is
always true, and the group capacity check applies to every volume type. -/
def ControllerExpandVolume (env : ExpandEnv) (req : ExpandRequest) :
    Except GrpcErr ExpandResponse × List Op :=
  if req.volumeId == "" then
    (.error ⟨.invalidArgument, "Volume id cannot be empty"⟩, [])
  else
    match env.getLlv with
    | .notFound _ =>
      (.error ⟨.notFound, "LVMLogicalVolume with id: " ++ req.volumeId ++ " not found"⟩, [])
    | .err m => (.error ⟨.internal, "error getting LVMLogicalVolume: " ++ m⟩, [])
    | .ok llv =>
      if llv.actualSize > req.requiredBytes + env.resizeDelta
          || AreSizesEqualWithinDelta req.requiredBytes llv.actualSize env.resizeDelta then
        (.ok ⟨llv.actualSize, true⟩, [])
      else
        match env.getLvg with
        | .error m => (.error ⟨.internal, "error getting LVMVolumeGroup: " ++ m⟩, [])
        | .ok _ =>
          match env.lvgCapacity with
          | .error m => (.error ⟨.internal, "error getting LVMVolumeGroupCapacity: " ++ m⟩, [])
          | .ok cap =>
            if cap < req.requiredBytes - llv.actualSize then
              (.error ⟨.internal, expandCapacityMsg req.requiredBytes cap⟩, [])
            else
              match env.updateErr with
              | some m => (.error ⟨.internal, "error updating LVMLogicalVolume: " ++ m⟩,
                           [Op.updateLLVSize req.volumeId req.requiredBytes])
              | none =>
                match env.waitRes with
                | .error m => (.error ⟨.unknown, m⟩,
                               [Op.updateLLVSize req.volumeId req.requiredBytes])
                | .ok _ => (.ok ⟨req.requiredBytes, true⟩,
                            [Op.updateLLVSize req.volumeId req.requiredBytes])

end LvmCsi

/-! ## Concrete instances used by counterexamples and witnesses -/

/-- A converged LVMLogicalVolume (actual size equals the request below). -/
def exNoopLlv : Csi.Llv :=
  { name := "vol-a", ns := "", lvgName := "vg1", typ := "Thick", specSize := 7, actualSize := 7 }

def exNoopEnv : Csi.ExpandEnv :=
  { getLlv := .ok exNoopLlv, getLvg := .ok (), lvgFreeSpace := 100,
    lvgCapacity := .ok 100, updateErr := none, waitRes := .ok 1, resizeDelta := 2 }

def exNoopReq : Csi.ExpandRequest :=
  { volumeId := "vol-a", requiredBytes := 7, blockAccess := false }

/-- Block-access expand request against the old driver (C8). -/
def exC8Req : Csi.ExpandRequest :=
  { volumeId := "vol-a", requiredBytes := 7, blockAccess := true }

/-- A CreateVolume request for the new driver with every request-level
check passing. -/
def exCreateReq : Csi.CreateRequest :=
  { name := "vol1", hasCapabilities := true, requiredBytes := 10,
    params := [(LocalCsi.TypeKey, "lvm"), (LocalCsi.LvmTypeKey, "Thin"),
               (LocalCsi.BindingModeKey, "Immediate"),
               (LocalCsi.LvmVolumeGroupKey, "- name: vg1")],
    preferredSegments := [] }

/-- New-driver environment where every helper succeeds but the selected
candidate has only 5 bytes free. -/
def exC5Env : LocalCsi.CreateEnv :=
  { scLVGs := .ok (), nodeMaxFree := ("node-a", 5),
    selectLVG := .ok { name := "vg1", actualVGNameOnTheNode := "vg1-real" },
    llvSpec := { typ := "Thin", thinPoolName := some "pool1" },
    createRes := .ok, waitRes := .ok 3 }

/-- Same new-driver environment but with a Thick request and ample space
(for witnesses). -/
def exCreateReqThick : Csi.CreateRequest :=
  { name := "vol1", hasCapabilities := true, requiredBytes := 10,
    params := [(LocalCsi.TypeKey, "lvm"), (LocalCsi.LvmTypeKey, "Thick"),
               (LocalCsi.BindingModeKey, "Immediate"),
               (LocalCsi.LvmVolumeGroupKey, "- name: vg1")],
    preferredSegments := [] }

/-- New-driver environment whose convergence poll fails. -/
def exC1EnvLocal : LocalCsi.CreateEnv :=
  { scLVGs := .ok (), nodeMaxFree := ("node-a", 50),
    selectLVG := .ok { name := "vg1", actualVGNameOnTheNode := "vg1-real" },
    llvSpec := { typ := "Thin", thinPoolName := some "pool1" },
    createRes := .ok, waitRes := .error "timed out waiting for LVMLogicalVolume status update" }

/-- Old-driver request (WaitForFirstConsumer, so no capacity gate). -/
def exC1ReqLvm : Csi.CreateRequest :=
  { name := "vol1", hasCapabilities := true, requiredBytes := 10,
    params := [(LvmCsi.lvmTypeKey, "Thick"),
               (LvmCsi.lvmBindingModeKey, "WaitForFirstConsumer")],
    preferredSegments := [[(LvmCsi.topologyKey, "node-b")]] }

/-- Old-driver environment whose convergence poll fails. -/
def exC1EnvLvm : LvmCsi.CreateEnv :=
  { nodeMaxFree := ("node-a", 50), lvgParams := ("lvg-res", "vg-on-node"),
    createRes := .ok,
    waitRes := .error "timed out waiting for LVMLogicalVolume status update" }

/-- Old-driver environment with a successful poll (C9 witness). -/
def exC9EnvLvm : LvmCsi.CreateEnv :=
  { nodeMaxFree := ("node-a", 50), lvgParams := ("lvg-res", "vg-on-node"),
    createRes := .err "stale client", waitRes := .ok 2 }

/-- New-driver environment with a fatally failing create (C9 witness). -/
def exC9EnvLocal : LocalCsi.CreateEnv :=
  { scLVGs := .ok (), nodeMaxFree := ("node-a", 50),
    selectLVG := .ok { name := "vg1", actualVGNameOnTheNode := "vg1-real" },
    llvSpec := { typ := "Thin", thinPoolName := some "pool1" },
    createRes := .err "stale client", waitRes := .ok 2 }

/-- A Thin volume that needs an actual resize (C4): actual 5, requested 10. -/
def exC4Llv : Csi.Llv :=
  { name := "vol-t", ns := "", lvgName := "vg1", typ := "Thin", specSize := 5, actualSize := 5 }

/-- Old-driver expand environment with only 1 byte of group capacity. -/
def exC4Env : Csi.ExpandEnv :=
  { getLlv := .ok exC4Llv, getLvg := .ok (), lvgFreeSpace := 1,
    lvgCapacity := .ok 1, updateErr := none, waitRes := .ok 1, resizeDelta := 0 }

def exC4Req : Csi.ExpandRequest :=
  { volumeId := "vol-t", requiredBytes := 10, blockAccess := false }

/-- Thick volume needing a resize, group with ample free space (witness). -/
def exC4ThickLlv : Csi.Llv :=
  { name := "vol-k", ns := "", lvgName := "vg1", typ := "Thick", specSize := 5, actualSize := 5 }

def exC4ThickEnv : Csi.ExpandEnv :=
  { getLlv := .ok exC4ThickLlv, getLvg := .ok (), lvgFreeSpace := 1,
    lvgCapacity := .ok 1, updateErr := none, waitRes := .ok 1, resizeDelta := 0 }

def exC4ThinOkEnv : Csi.ExpandEnv :=
  { getLlv := .ok exC4Llv, getLvg := .ok (), lvgFreeSpace := 1,
    lvgCapacity := .ok 100, updateErr := none, waitRes := .ok 1, resizeDelta := 0 }

/-- Old-driver Immediate request exceeding free capacity (C5 witness). -/
def exC5ReqLvm : Csi.CreateRequest :=
  { name := "vol1", hasCapabilities := true, requiredBytes := 10,
    params := [(LvmCsi.lvmTypeKey, "Thick"), (LvmCsi.lvmBindingModeKey, "Immediate")],
    preferredSegments := [] }

/-- Old-driver environment with 5 bytes free (C5 witness). -/
def exC5EnvLvm : LvmCsi.CreateEnv :=
  { nodeMaxFree := ("node-a", 5), lvgParams := ("lvg-res", "vg-on-node"),
    createRes := .ok, waitRes := .ok 2 }

/-- Same-named derived storage class of this provisioner whose bindings
differ from the spec below (C2). -/
def exC2sc : SC :=
  { name := "a", provisioner := LocalStorageClassProvisioner,
    lvgParams := some [{ name := "vg2", thin := none }], finalizers := [] }

/-- Spec with no deletion marker, bindings differing from `exC2sc`, and no
recorded status (C2 counterexample). -/
def exC2lsc : Lsc :=
  { name := "a", deletionTimestamp := none, finalizers := [],
    lvm := some { typ := "Thick", lvgs := [{ name := "vg1", thin := none }] },
    status := none }

/-- The same spec with a recorded status (C2 witness). -/
def exC2lscSt : Lsc :=
  { exC2lsc with status := some { phase := "Created", reason := "" } }

/-- The same spec with a deletion marker (C2 witness). -/
def exC2lscDel : Lsc :=
  { exC2lsc with deletionTimestamp := some 5 }

/-- Derived storage class for C10: position 0 names differ, position 1 has
no thin pool on either side. -/
def exC10sc : SC :=
  { name := "s", provisioner := LocalStorageClassProvisioner,
    lvgParams := some [{ name := "x", thin := none }, { name := "p", thin := none }],
    finalizers := [] }

def exC10lsc : Lsc :=
  { name := "s", deletionTimestamp := none, finalizers := [],
    lvm := some { typ := "Thin",
                  lvgs := [{ name := "y", thin := none }, { name := "p", thin := none }] },
    status := some { phase := "Created", reason := "" } }

/-- C10 witness: the both-sides-without-thin-pool position is reached
immediately. -/
def exC10wsc : SC :=
  { name := "w", provisioner := LocalStorageClassProvisioner,
    lvgParams := some [{ name := "a", thin := none }], finalizers := [] }

def exC10wlsc : Lsc :=
  { name := "w", deletionTimestamp := none, finalizers := [],
    lvm := some { typ := "Thin", lvgs := [{ name := "a", thin := none }] },
    status := some { phase := "Created", reason := "" } }

/-- A storage class owned by another provisioner (C7 witness). -/
def exC7sc : SC :=
  { name := "other-sc", provisioner := "kubernetes.io/aws-ebs", lvgParams := none,
    finalizers := [] }

/-- A marked-for-deletion spec (C7 witness). -/
def exC7lsc : Lsc :=
  { name := "mine", deletionTimestamp := some 1,
    finalizers := [LocalStorageClassFinalizerName], lvm := none, status := none }

def exC7oracle : Oracle :=
  { lscUpdateOk := true, scUpdateOk := true, scCreateOk := true, scDeleteOk := true }

def exC7s : Cluster := { scs := [exC7sc], lvgs := [], lsc := exC7lsc }

/-- The derived storage class owned by this provisioner (C7 witness for
the delete-path ordering; its deletion fails below). -/
def exC7bsc : SC :=
  { name := "mine", provisioner := LocalStorageClassProvisioner, lvgParams := some [],
    finalizers := [LocalStorageClassFinalizerName] }

def exC7bo : Oracle :=
  { lscUpdateOk := true, scUpdateOk := true, scCreateOk := true, scDeleteOk := false }

def exC7bs : Cluster := { scs := [exC7bsc], lvgs := [], lsc := exC7lsc }

/-- Live volume groups for the C3 scenario: two groups on the same node,
the second without the referenced pool. -/
def exC3lvgList : List Lvg :=
  [{ name := "vg1", nodes := ["n1"], thinPools := ["poolX"] },
   { name := "vg2", nodes := ["n1"], thinPools := ["poolY"] }]

def exC3lvm : LscLvm :=
  { typ := "Thin",
    lvgs := [{ name := "vg1", thin := some { poolName := "poolX" } },
             { name := "vg2", thin := some { poolName := "nope" } }] }

/-- C3 scenario spec: Thin, two volume groups on one node, one nonexistent
thin pool. -/
def exC3lsc : Lsc :=
  { name := "c", deletionTimestamp := none, finalizers := [],
    lvm := some exC3lvm, status := none }

/-! ## Helper lemmas -/

theorem isPrefOf_append_self (l t : List Char) : isPrefOf l (l ++ t) = true := by
  induction l with
  | nil => rfl
  | cons a as ih => simp [isPrefOf, ih]

theorem containsSub_append (a sub b : List Char) :
    containsSub sub (a ++ (sub ++ b)) = true := by
  induction a with
  | nil =>
    cases sub with
    | nil =>
      cases b with
      | nil => rfl
      | cons c cs => simp [containsSub, isPrefOf]
    | cons c cs =>
      simp only [List.nil_append, List.cons_append, containsSub, isPrefOf, Bool.or_eq_true,
        Bool.and_eq_true, beq_self_eq_true, true_and]
      exact Or.inl (isPrefOf_append_self cs b)
  | cons x xs ih => simp [containsSub, ih]

theorem mentions_of_parts (a b c : String) : mentions (a ++ b ++ c) b := by
  unfold mentions
  have h : (a ++ b ++ c).data = a.data ++ (b.data ++ c.data) := by
    simp [String.data_append]
  rw [h]
  exact containsSub_append _ _ _

theorem mentions_of_head (b c : String) : mentions (b ++ c) b := by
  unfold mentions
  have h : (b ++ c).data = [] ++ (b.data ++ c.data) := by
    simp [String.data_append]
  rw [h]
  exact containsSub_append _ _ _

theorem mentions_of_suffix (a b : String) : mentions (a ++ b) b := by
  unfold mentions
  have h : (a ++ b).data = a.data ++ (b.data ++ []) := by
    simp [String.data_append]
  rw [h]
  exact containsSub_append _ _ _

theorem capacityMsg_mentions (r f : Int) :
    mentions (Csi.capacityMsg r f) (toString r) ∧ mentions (Csi.capacityMsg r f) (toString f) := by
  constructor
  · have h : Csi.capacityMsg r f =
        "requested size: " ++ toString r ++ (" is greater than free space: " ++ toString f) := by
      unfold Csi.capacityMsg
      rw [String.append_assoc]
    rw [h]
    exact mentions_of_parts _ _ _
  · exact mentions_of_suffix _ _

theorem expandCapacityMsg_mentions (r f : Int) :
    mentions (Csi.expandCapacityMsg r f) (toString r) ∧
      mentions (Csi.expandCapacityMsg r f) (toString f) := by
  constructor
  · have h : Csi.expandCapacityMsg r f =
        "requested size: " ++ toString r ++
          (" is greater than the capacity of the LVMVolumeGroup: " ++ toString f) := by
      unfold Csi.expandCapacityMsg
      rw [String.append_assoc]
    rw [h]
    exact mentions_of_parts _ _ _
  · exact mentions_of_suffix _ _

/-- The no-op guard of both expand paths is true whenever the actual size
is within the delta of the request or exceeds it. -/
theorem noopGuard_true (a r d : Int) (h : |a - r| ≤ d ∨ r ≤ a) :
    (decide (a > r + d) || Csi.AreSizesEqualWithinDelta r a d) = true := by
  unfold Csi.AreSizesEqualWithinDelta
  simp only [Bool.or_eq_true, decide_eq_true_eq]
  rcases h with h | h
  · right
    rw [abs_sub_comm] at h
    exact h
  · rcases le_or_lt (a - r) d with h5 | h5
    · right
      have : |r - a| = a - r := by
        rw [abs_sub_comm]
        exact abs_of_nonneg (by omega)
      omega
    · left
      omega

/-! ## Claims -/

/-- C6: for every ControllerExpandVolume invocation (in either driver)
whose observed actual size is within the resize delta of the requested
size or exceeds it, no LVMLogicalVolume mutation is performed and the
response carries the current actual size as the capacity. -/
theorem C6_expand_noop :
    (∀ (env : Csi.ExpandEnv) (req : Csi.ExpandRequest) (llv : Csi.Llv),
      req.volumeId ≠ "" →
      env.getLlv = .ok llv →
      (|llv.actualSize - req.requiredBytes| ≤ env.resizeDelta ∨
        req.requiredBytes ≤ llv.actualSize) →
      LocalCsi.ControllerExpandVolume env req =
        (.ok ⟨llv.actualSize, !req.blockAccess⟩, []))
    ∧ (∀ (env : Csi.ExpandEnv) (req : Csi.ExpandRequest) (llv : Csi.Llv),
      req.volumeId ≠ "" →
      env.getLlv = .ok llv →
      (|llv.actualSize - req.requiredBytes| ≤ env.resizeDelta ∨
        req.requiredBytes ≤ llv.actualSize) →
      LvmCsi.ControllerExpandVolume env req = (.ok ⟨llv.actualSize, true⟩, [])) := by
  constructor
  · intro env req llv h1 h2 h4
    unfold LocalCsi.ControllerExpandVolume
    rw [h2]
    have hid : (req.volumeId == "") = false := by
      simp [h1]
    simp only [hid, Bool.false_eq_true, if_false]
    rw [noopGuard_true llv.actualSize req.requiredBytes env.resizeDelta h4]
    simp
  · intro env req llv h1 h2 h4
    unfold LvmCsi.ControllerExpandVolume
    rw [h2]
    have hid : (req.volumeId == "") = false := by
      simp [h1]
    simp only [hid, Bool.false_eq_true, if_false]
    rw [noopGuard_true llv.actualSize req.requiredBytes env.resizeDelta h4]
    simp

/-- C6 witness: a converged 7-byte volume expands to a no-op in both
drivers. -/
theorem C6_witness :
    LocalCsi.ControllerExpandVolume exNoopEnv exNoopReq = (.ok ⟨7, true⟩, []) ∧
      LvmCsi.ControllerExpandVolume exNoopEnv exNoopReq = (.ok ⟨7, true⟩, []) := by
  refine ⟨?_, ?_⟩
  · exact C6_expand_noop.1 exNoopEnv exNoopReq exNoopLlv (by decide) (by decide) (by decide)
  · exact C6_expand_noop.2 exNoopEnv exNoopReq exNoopLlv (by decide) (by decide) (by decide)

/-- C8 counterexample: the old driver reports `NodeExpansionRequired =
true` even when the request declares block access, so the claim fails on
its ControllerExpandVolume. -/
theorem C8_counterexample :
    exC8Req.blockAccess = true ∧
      (LvmCsi.ControllerExpandVolume exNoopEnv exC8Req).1 =
        .ok { capacityBytes := 7, nodeExpansionRequired := true } := by
  decide

/-- C8 amended: the new driver reports `NodeExpansionRequired` as the
negation of block access on every successful response; the old driver
always reports true. -/
theorem C8_amended :
    (∀ (env : Csi.ExpandEnv) (req : Csi.ExpandRequest) (resp : Csi.ExpandResponse)
      (tr : List Csi.Op),
      LocalCsi.ControllerExpandVolume env req = (.ok resp, tr) →
      resp.nodeExpansionRequired = !req.blockAccess)
    ∧ (∀ (env : Csi.ExpandEnv) (req : Csi.ExpandRequest) (resp : Csi.ExpandResponse)
      (tr : List Csi.Op),
      LvmCsi.ControllerExpandVolume env req = (.ok resp, tr) →
      resp.nodeExpansionRequired = true) := by
  constructor
  · intro env req resp tr h
    unfold LocalCsi.ControllerExpandVolume at h
    repeat' split at h
    all_goals try simp_all
    all_goals rw [← h.1]
  · intro env req resp tr h
    unfold LvmCsi.ControllerExpandVolume at h
    repeat' split at h
    all_goals try simp_all
    all_goals rw [← h.1]

/-- C8 witness: a non-block expand of a converged volume in the new driver
reports node expansion required. -/
theorem C8_witness :
    (LocalCsi.ControllerExpandVolume exNoopEnv exNoopReq).1.toOption.map
        (fun r => r.nodeExpansionRequired) = some true ∧
      (LvmCsi.ControllerExpandVolume exNoopEnv exC8Req).1.toOption.map
        (fun r => r.nodeExpansionRequired) = some true := by
  constructor
  · have h := C8_amended.1 exNoopEnv exNoopReq
      { capacityBytes := 7, nodeExpansionRequired := !exNoopReq.blockAccess } []
      (by decide)
    decide
  · have h := C8_amended.2 exNoopEnv exC8Req
      { capacityBytes := 7, nodeExpansionRequired := true } [] (by decide)
    decide

/-- C9: re-delivered CreateVolume calls are idempotent in both drivers: a
run in which the create reports AlreadyExists is indistinguishable (same
response, same trace) from the run in which the create succeeded, and a
fatal create error aborts the call with that error once the create step
was reached. -/
theorem C9_idempotent_create :
    (∀ (env : LocalCsi.CreateEnv) (req : Csi.CreateRequest),
      LocalCsi.CreateVolume { env with createRes := .ok } req =
        LocalCsi.CreateVolume { env with createRes := .alreadyExists } req)
    ∧ (∀ (env : LocalCsi.CreateEnv) (req : Csi.CreateRequest) (e : String),
      env.createRes = .err e →
      Csi.Op.createLLV req.name ∈ (LocalCsi.CreateVolume env req).2 →
      (LocalCsi.CreateVolume env req).1 = .error ⟨.unknown, e⟩)
    ∧ (∀ (env : LvmCsi.CreateEnv) (req : Csi.CreateRequest),
      LvmCsi.CreateVolume { env with createRes := .ok } req =
        LvmCsi.CreateVolume { env with createRes := .alreadyExists } req)
    ∧ (∀ (env : LvmCsi.CreateEnv) (req : Csi.CreateRequest) (e : String),
      env.createRes = .err e →
      Csi.Op.createLLV req.name ∈ (LvmCsi.CreateVolume env req).2 →
      (LvmCsi.CreateVolume env req).1 = .error ⟨.unknown, e⟩) := by
  refine ⟨?_, ?_, ?_, ?_⟩
  · intro env req
    rfl
  · intro env req e he hmem
    unfold LocalCsi.CreateVolume at hmem ⊢
    rw [he] at hmem ⊢
    repeat' split at hmem
    all_goals simp_all [Csi.createFailureOf]
  · intro env req
    rfl
  · intro env req e he hmem
    unfold LvmCsi.CreateVolume at hmem ⊢
    rw [he] at hmem ⊢
    repeat' split at hmem
    all_goals simp_all [Csi.createFailureOf]

/-- C9 witness: the AlreadyExists/ok equivalence at a concrete request,
and a fatal create error aborting concretely in both drivers. -/
theorem C9_witness :
    LocalCsi.CreateVolume { exC1EnvLocal with createRes := .ok } exCreateReqThick =
        LocalCsi.CreateVolume { exC1EnvLocal with createRes := .alreadyExists } exCreateReqThick ∧
      (LocalCsi.CreateVolume exC9EnvLocal exCreateReqThick).1 =
        .error ⟨.unknown, "stale client"⟩ ∧
      (LvmCsi.CreateVolume exC9EnvLvm exC1ReqLvm).1 = .error ⟨.unknown, "stale client"⟩ := by
  refine ⟨?_, ?_, ?_⟩
  · exact C9_idempotent_create.1 exC1EnvLocal exCreateReqThick
  · exact C9_idempotent_create.2.1 exC9EnvLocal exCreateReqThick "stale client" (by decide)
      (by decide)
  · exact C9_idempotent_create.2.2.2 exC9EnvLvm exC1ReqLvm "stale client" (by decide) (by decide)

/-- C5 counterexample: in the new driver an Immediate Thin request whose
size exceeds the selected candidate's free capacity does not fail — the
capacity gate applies only to Thick requests — and a LVMLogicalVolume is
created. -/
theorem C5_counterexample :
    Csi.look exCreateReq.params LocalCsi.BindingModeKey = Csi.BindingModeI ∧
      exCreateReq.requiredBytes > exC5Env.nodeMaxFree.2 ∧
      (LocalCsi.CreateVolume exC5Env exCreateReq).1 =
        .ok { capacityBytes := 10, volumeId := "vol1",
              volumeContext := exCreateReq.params ++
                [(LocalCsi.SubPath, "vol1"), (LocalCsi.VGNameKey, "vg1-real"),
                 (LocalCsi.ThinPoolNameKey, "pool1")],
              topologyNode := "node-a" } ∧
      Csi.Op.createLLV "vol1" ∈ (LocalCsi.CreateVolume exC5Env exCreateReq).2 := by
  decide

/-- C5 amended: in Immediate mode an oversized request fails before any
LVMLogicalVolume is created, with an Internal-code error whose message
carries both the requested and the available size — in the new driver
only for Thick requests, in the old driver for every type. -/
theorem C5_amended :
    (∀ (env : LocalCsi.CreateEnv) (req : Csi.CreateRequest),
      Csi.look req.params LocalCsi.TypeKey = "lvm" →
      req.name ≠ "" →
      req.hasCapabilities = true →
      Csi.look req.params LocalCsi.LvmVolumeGroupKey ≠ "" →
      env.scLVGs = .ok () →
      Csi.look req.params LocalCsi.BindingModeKey = Csi.BindingModeI →
      Csi.look req.params LocalCsi.LvmTypeKey = Csi.LLVTypeThick →
      req.requiredBytes > env.nodeMaxFree.2 →
      LocalCsi.CreateVolume env req =
        (.error ⟨.internal, Csi.capacityMsg req.requiredBytes env.nodeMaxFree.2⟩, []) ∧
      mentions (Csi.capacityMsg req.requiredBytes env.nodeMaxFree.2)
        (toString req.requiredBytes) ∧
      mentions (Csi.capacityMsg req.requiredBytes env.nodeMaxFree.2)
        (toString env.nodeMaxFree.2))
    ∧ (∀ (env : LvmCsi.CreateEnv) (req : Csi.CreateRequest),
      req.name ≠ "" →
      req.hasCapabilities = true →
      Csi.look req.params LvmCsi.lvmBindingModeKey = Csi.BindingModeI →
      req.requiredBytes > env.nodeMaxFree.2 →
      LvmCsi.CreateVolume env req =
        (.error ⟨.internal, Csi.capacityMsg req.requiredBytes env.nodeMaxFree.2⟩, []) ∧
      mentions (Csi.capacityMsg req.requiredBytes env.nodeMaxFree.2)
        (toString req.requiredBytes) ∧
      mentions (Csi.capacityMsg req.requiredBytes env.nodeMaxFree.2)
        (toString env.nodeMaxFree.2)) := by
  constructor
  · intro env req h1 h2 h3 h4 h5 h6 h7 h8
    refine ⟨?_, (capacityMsg_mentions _ _).1, (capacityMsg_mentions _ _).2⟩
    unfold LocalCsi.CreateVolume LocalCsi.pickNode
    rw [h1, h5, h6, h7]
    simp [h2, h3, h4, h8]
  · intro env req h1 h2 h3 h4
    refine ⟨?_, (capacityMsg_mentions _ _).1, (capacityMsg_mentions _ _).2⟩
    unfold LvmCsi.CreateVolume LvmCsi.pickNode LvmCsi.normBindingMode
    rw [h3]
    simp [h1, h2, h4, Csi.BindingModeI, Csi.BindingModeWFFC]

/-- C5 witness: oversized Thick Immediate request failing concretely in
both drivers with both sizes in the message and no resource created. -/
theorem C5_witness :
    LocalCsi.CreateVolume exC5Env exCreateReqThick =
        (.error ⟨.internal, Csi.capacityMsg 10 5⟩, []) ∧
      mentions (Csi.capacityMsg 10 5) (toString (10 : Int)) ∧
      mentions (Csi.capacityMsg 10 5) (toString (5 : Int)) ∧
      LvmCsi.CreateVolume exC5EnvLvm exC5ReqLvm =
        (.error ⟨.internal, Csi.capacityMsg 10 5⟩, []) := by
  have hl := C5_amended.1 exC5Env exCreateReqThick (by decide) (by decide) (by decide)
    (by decide) (by decide) (by decide) (by decide) (by decide)
  have ho := C5_amended.2 exC5EnvLvm exC5ReqLvm (by decide) (by decide) (by decide) (by decide)
  exact ⟨hl.1, hl.2.1, hl.2.2, ho.1⟩

/-- C4 counterexample: the old driver capacity-checks Thin volumes against
the owning group as well — a Thin expand beyond the group capacity fails
instead of proceeding. -/
theorem C4_counterexample :
    exC4Llv.typ = Csi.LLVTypeThin ∧
      (LvmCsi.ControllerExpandVolume exC4Env exC4Req).1 =
        .error ⟨.internal, Csi.expandCapacityMsg 10 1⟩ ∧
      (LvmCsi.ControllerExpandVolume exC4Env exC4Req).2 = [] := by
  decide

/-- C4 amended: on the expand path the group's free capacity is
re-validated before any mutation and a shortfall fails with an
Internal-code error leaving the request untouched — in the new driver
only for Thick volumes (Thin volumes proceed to the mutation without a
group capacity check), while the old driver checks every type. -/
theorem C4_amended :
    (∀ (env : Csi.ExpandEnv) (req : Csi.ExpandRequest) (llv : Csi.Llv),
      req.volumeId ≠ "" →
      env.getLlv = .ok llv →
      llv.typ = Csi.LLVTypeThick →
      ¬(llv.actualSize > req.requiredBytes + env.resizeDelta) →
      ¬(|req.requiredBytes - llv.actualSize| ≤ env.resizeDelta) →
      env.getLvg = .ok () →
      env.lvgFreeSpace < req.requiredBytes - llv.actualSize →
      LocalCsi.ControllerExpandVolume env req =
        (.error ⟨.internal, Csi.expandCapacityMsg req.requiredBytes env.lvgFreeSpace⟩, []) ∧
      mentions (Csi.expandCapacityMsg req.requiredBytes env.lvgFreeSpace)
        (toString req.requiredBytes) ∧
      mentions (Csi.expandCapacityMsg req.requiredBytes env.lvgFreeSpace)
        (toString env.lvgFreeSpace))
    ∧ (∀ (env : Csi.ExpandEnv) (req : Csi.ExpandRequest) (llv : Csi.Llv),
      req.volumeId ≠ "" →
      env.getLlv = .ok llv →
      llv.typ = Csi.LLVTypeThin →
      ¬(llv.actualSize > req.requiredBytes + env.resizeDelta) →
      ¬(|req.requiredBytes - llv.actualSize| ≤ env.resizeDelta) →
      env.getLvg = .ok () →
      Csi.Op.updateLLVSize req.volumeId req.requiredBytes ∈
        (LocalCsi.ControllerExpandVolume env req).2)
    ∧ (∀ (env : Csi.ExpandEnv) (req : Csi.ExpandRequest) (llv : Csi.Llv) (cap : Int),
      req.volumeId ≠ "" →
      env.getLlv = .ok llv →
      ¬(llv.actualSize > req.requiredBytes + env.resizeDelta) →
      ¬(|req.requiredBytes - llv.actualSize| ≤ env.resizeDelta) →
      env.getLvg = .ok () →
      env.lvgCapacity = .ok cap →
      cap < req.requiredBytes - llv.actualSize →
      LvmCsi.ControllerExpandVolume env req =
        (.error ⟨.internal, Csi.expandCapacityMsg req.requiredBytes cap⟩, [])) := by
  refine ⟨?_, ?_, ?_⟩
  · intro env req llv h1 h2 h3 hn1 hn2 h6 h7
    refine ⟨?_, (expandCapacityMsg_mentions _ _).1, (expandCapacityMsg_mentions _ _).2⟩
    unfold LocalCsi.ControllerExpandVolume
    rw [h2]
    have hid : (req.volumeId == "") = false := by simp [h1]
    have hg : (decide (llv.actualSize > req.requiredBytes + env.resizeDelta) ||
        Csi.AreSizesEqualWithinDelta req.requiredBytes llv.actualSize env.resizeDelta) = false := by
      simp only [Csi.AreSizesEqualWithinDelta, Bool.or_eq_false_iff, decide_eq_false_iff_not]
      exact ⟨hn1, hn2⟩
    simp only [hid, Bool.false_eq_true, if_false, hg]
    rw [h6]
    simp [h3, h7]
  · intro env req llv h1 h2 h3 hn1 hn2 h6
    unfold LocalCsi.ControllerExpandVolume
    rw [h2]
    have hid : (req.volumeId == "") = false := by simp [h1]
    have hg : (decide (llv.actualSize > req.requiredBytes + env.resizeDelta) ||
        Csi.AreSizesEqualWithinDelta req.requiredBytes llv.actualSize env.resizeDelta) = false := by
      simp only [Csi.AreSizesEqualWithinDelta, Bool.or_eq_false_iff, decide_eq_false_iff_not]
      exact ⟨hn1, hn2⟩
    simp only [hid, Bool.false_eq_true, if_false, hg]
    rw [h6]
    have hty : (llv.typ == Csi.LLVTypeThick) = false := by
      rw [h3]
      decide
    simp only [hty, Bool.false_and, Bool.false_eq_true, if_false]
    cases hu : env.updateErr with
    | some m => simp
    | none =>
      cases hw : env.waitRes with
      | error m => simp
      | ok n => simp
  · intro env req llv cap h1 h2 hn1 hn2 h6 h7 h8
    unfold LvmCsi.ControllerExpandVolume
    rw [h2]
    have hid : (req.volumeId == "") = false := by simp [h1]
    have hg : (decide (llv.actualSize > req.requiredBytes + env.resizeDelta) ||
        Csi.AreSizesEqualWithinDelta req.requiredBytes llv.actualSize env.resizeDelta) = false := by
      simp only [Csi.AreSizesEqualWithinDelta, Bool.or_eq_false_iff, decide_eq_false_iff_not]
      exact ⟨hn1, hn2⟩
    simp only [hid, Bool.false_eq_true, if_false, hg]
    rw [h6, h7]
    simp [h8]

/-- C4 witness: a Thick expand beyond group free space fails with both
sizes in the message and no mutation; the same Thin expand in the new
driver proceeds to the mutation. -/
theorem C4_witness :
    LocalCsi.ControllerExpandVolume exC4ThickEnv exC4Req =
        (.error ⟨.internal, Csi.expandCapacityMsg 10 1⟩, []) ∧
      mentions (Csi.expandCapacityMsg 10 1) (toString (10 : Int)) ∧
      Csi.Op.updateLLVSize "vol-t" 10 ∈
        (LocalCsi.ControllerExpandVolume exC4ThinOkEnv exC4Req).2 ∧
      LvmCsi.ControllerExpandVolume exC4Env exC4Req =
        (.error ⟨.internal, Csi.expandCapacityMsg 10 1⟩, []) := by
  have hk := C4_amended.1 exC4ThickEnv exC4Req exC4ThickLlv (by decide) (by decide) (by decide)
    (by decide) (by decide) (by decide) (by decide)
  have ht := C4_amended.2.1 exC4ThinOkEnv exC4Req exC4Llv (by decide) (by decide) (by decide)
    (by decide) (by decide) (by decide)
  have ho := C4_amended.2.2 exC4Env exC4Req exC4Llv 1 (by decide) (by decide) (by decide)
    (by decide) (by decide) (by decide) (by decide)
  exact ⟨hk.1, hk.2.1, ht, ho⟩

/-- C1 counterexample: in the old driver a CreateVolume whose convergence
poll fails returns the error without deleting the just-created
LVMLogicalVolume. -/
theorem C1_counterexample :
    (LvmCsi.CreateVolume exC1EnvLvm exC1ReqLvm).1 =
        .error ⟨.unknown, "timed out waiting for LVMLogicalVolume status update"⟩ ∧
      Csi.Op.createLLV "vol1" ∈ (LvmCsi.CreateVolume exC1EnvLvm exC1ReqLvm).2 ∧
      Csi.Op.deleteLLV "vol1" ∉ (LvmCsi.CreateVolume exC1EnvLvm exC1ReqLvm).2 := by
  decide

/-- C1 amended: when the convergence poll after a successful (or
AlreadyExists) create fails, the new driver best-effort deletes the
just-created request and returns the poll error, while the old driver
returns the poll error without any compensating delete. -/
theorem C1_amended :
    (∀ (env : LocalCsi.CreateEnv) (req : Csi.CreateRequest) (node e : String),
      Csi.look req.params LocalCsi.TypeKey = "lvm" →
      req.name ≠ "" →
      req.hasCapabilities = true →
      Csi.look req.params LocalCsi.LvmVolumeGroupKey ≠ "" →
      env.scLVGs = .ok () →
      LocalCsi.pickNode env req = .ok node →
      (∃ lvg, env.selectLVG = .ok lvg) →
      Csi.createFailureOf env.createRes = none →
      env.waitRes = .error e →
      LocalCsi.CreateVolume env req =
        (.error ⟨.unknown, e⟩, [.createLLV req.name, .deleteLLV req.name]))
    ∧ (∀ (env : LvmCsi.CreateEnv) (req : Csi.CreateRequest) (node e : String),
      req.name ≠ "" →
      req.hasCapabilities = true →
      LvmCsi.pickNode env req = .ok node →
      Csi.createFailureOf env.createRes = none →
      env.waitRes = .error e →
      LvmCsi.CreateVolume env req = (.error ⟨.unknown, e⟩, [.createLLV req.name]) ∧
      Csi.Op.deleteLLV req.name ∉ (LvmCsi.CreateVolume env req).2) := by
  constructor
  · intro env req node e h1 h2 h3 h4 h5 h6 h7 h8 h9
    obtain ⟨lvg, hsel⟩ := h7
    unfold LocalCsi.CreateVolume
    rw [h1, h5, h6, hsel, h8, h9]
    simp [h2, h3, h4]
  · intro env req node e h1 h2 h3 h4 h5
    have heq : LvmCsi.CreateVolume env req = (.error ⟨.unknown, e⟩, [.createLLV req.name]) := by
      unfold LvmCsi.CreateVolume
      rw [h3, h4, h5]
      simp [h1, h2]
    refine ⟨heq, ?_⟩
    rw [heq]
    simp

/-- C1 witness: the new driver deleting the request after a failed poll
and the old driver leaving it behind, at a concrete request. -/
theorem C1_witness :
    LocalCsi.CreateVolume exC1EnvLocal exCreateReq =
        (.error ⟨.unknown, "timed out waiting for LVMLogicalVolume status update"⟩,
         [.createLLV "vol1", .deleteLLV "vol1"]) ∧
      LvmCsi.CreateVolume exC1EnvLvm exC1ReqLvm =
        (.error ⟨.unknown, "timed out waiting for LVMLogicalVolume status update"⟩,
         [.createLLV "vol1"]) := by
  have hl := C1_amended.1 exC1EnvLocal exCreateReq "node-a"
    "timed out waiting for LVMLogicalVolume status update" (by decide) (by decide) (by decide)
    (by decide) (by decide) (by decide) ⟨{ name := "vg1", actualVGNameOnTheNode := "vg1-real" },
      by decide⟩ (by decide) (by decide)
  have ho := C1_amended.2 exC1EnvLvm exC1ReqLvm "node-b"
    "timed out waiting for LVMLogicalVolume status update" (by decide) (by decide) (by decide)
    (by decide) (by decide)
  exact ⟨hl, ho.1⟩

/-- C2 counterexample: a spec with no deletion timestamp whose same-named
storage class belongs to this provisioner and has differing bindings, but
with no recorded status, classifies as Create, not Update. -/
theorem C2_counterexample :
    exC2lsc.deletionTimestamp = none ∧
      [exC2sc].find? (fun sc => sc.name == exC2lsc.name) = some exC2sc ∧
      exC2sc.provisioner = LocalStorageClassProvisioner ∧
      hasLVGDiff exC2sc exC2lsc = .ok true ∧
      identifyReconcileFunc [exC2sc] exC2lsc = .ok .create := by
  decide

/-- C2 amended: a deletion timestamp always classifies as Delete; no
same-named storage class and no recorded status classifies as Create; and
a spec with no deletion timestamp that also has a recorded status, whose
same-named storage class belongs to this provisioner, classifies as
Update when the bindings differ or the recorded phase is Failed. -/
theorem C2_amended :
    (∀ (scs : List SC) (lsc : Lsc),
      lsc.deletionTimestamp.isSome →
      identifyReconcileFunc scs lsc = .ok .delete)
    ∧ (∀ (scs : List SC) (lsc : Lsc),
      lsc.deletionTimestamp = none →
      (∀ sc ∈ scs, sc.name ≠ lsc.name) →
      lsc.status = none →
      identifyReconcileFunc scs lsc = .ok .create)
    ∧ (∀ (scs : List SC) (lsc : Lsc) (sc : SC) (st : LscStatus),
      lsc.deletionTimestamp = none →
      lsc.status = some st →
      scs.find? (fun t => t.name == lsc.name) = some sc →
      sc.provisioner = LocalStorageClassProvisioner →
      (hasLVGDiff sc lsc = .ok true ∨
        (hasLVGDiff sc lsc = .ok false ∧ st.phase = FailedStatusPhase)) →
      identifyReconcileFunc scs lsc = .ok .update) := by
  refine ⟨?_, ?_, ?_⟩
  · intro scs lsc h
    simp [identifyReconcileFunc, shouldReconcileByDeleteFunc, h]
  · intro scs lsc h1 h2 h3
    simp [identifyReconcileFunc, shouldReconcileByDeleteFunc, shouldReconcileByCreateFunc,
      h1, h3]
  · intro scs lsc sc st h1 h2 h3 h4 h5
    have hmem : sc ∈ scs := List.mem_of_find?_eq_some h3
    have hname : (sc.name == lsc.name) = true := by
      have := List.find?_some h3
      simpa using this
    have hcr : shouldReconcileByCreateFunc scs lsc = false := by
      unfold shouldReconcileByCreateFunc
      rw [h1]
      have hany : scs.any (fun t => t.name == lsc.name && lsc.status.isSome) = true :=
        List.any_eq_true.mpr ⟨sc, hmem, by simp [hname, h2]⟩
      simp [hany]
    have hupd : shouldReconcileByUpdateFunc scs lsc = .ok true := by
      unfold shouldReconcileByUpdateFunc
      rw [h1, h3]
      simp only [Option.isSome_none, Bool.false_eq_true, if_false]
      rw [h4]
      simp only [beq_self_eq_true, if_true]
      rcases h5 with h5 | ⟨h5, h6⟩
      · rw [h5]
      · rw [h5, h2]
        simp [h6]
    unfold identifyReconcileFunc shouldReconcileByDeleteFunc
    rw [h1, hcr, hupd]
    rfl

/-- C2 witness: the three classifications at concrete specs. -/
theorem C2_witness :
    identifyReconcileFunc [exC2sc] exC2lscDel = .ok .delete ∧
      identifyReconcileFunc [] exC2lsc = .ok .create ∧
      identifyReconcileFunc [exC2sc] exC2lscSt = .ok .update := by
  refine ⟨?_, ?_, ?_⟩
  · exact C2_amended.1 [exC2sc] exC2lscDel (by decide)
  · exact C2_amended.2.1 [] exC2lsc (by decide) (by simp) (by decide)
  · exact C2_amended.2.2 [exC2sc] exC2lscSt exC2sc { phase := "Created", reason := "" }
      (by decide) (by decide) (by decide) (by decide) (Or.inl (by decide))

/-- If some position of a Thin-type positional comparison has no thin pool
configured on either side, the loop can return a diff or an error, but
never "no diff". -/
theorem lvgPairDiff_ne_ok_false (cs ds : List LscLVG) (i : Nat) (c d : LscLVG)
    (hc : cs.get? i = some c) (hd : ds.get? i = some d)
    (hcn : c.thin = none) (hdn : d.thin = none) :
    lvgPairDiff Thin cs ds ≠ .ok false := by
  induction cs generalizing ds i with
  | nil => simp at hc
  | cons c0 cs ih =>
    cases ds with
    | nil => simp at hd
    | cons d0 ds =>
      cases i with
      | zero =>
        simp only [List.get?, Option.some.injEq] at hc hd
        unfold lvgPairDiff
        rw [hc, hd]
        by_cases hn : c.name = d.name
        · rw [hcn, hdn]
          simp [hn]
        · simp [hn]
      | succ j =>
        simp only [List.get?] at hc hd
        unfold lvgPairDiff
        by_cases hn : c0.name = d0.name
        · simp only [hn, ne_eq, not_true_eq_false, if_false, if_pos rfl]
          cases hth0 : c0.thin with
          | none =>
            cases hth1 : d0.thin with
            | none => simp
            | some t => simp
          | some t0 =>
            cases hth1 : d0.thin with
            | none => simp
            | some t1 =>
              by_cases hp : t0.poolName = t1.poolName
              · simp only [hp, ne_eq, not_true_eq_false, if_false]
                exact ih ds j hc hd
              · simp [hp]
        · simp [hn]

/-- `hasLVGDiff` never reports "no diff" for a Thin spec once some position
lacks a thin pool on both sides. -/
theorem hasLVGDiff_never_no_diff (sc : SC) (lsc : Lsc) (cur : List LscLVG) (lvm : LscLvm)
    (i : Nat) (c d : LscLVG)
    (hp : sc.lvgParams = some cur) (hl : lsc.lvm = some lvm) (ht : lvm.typ = Thin)
    (hc : cur.get? i = some c) (hd : lvm.lvgs.get? i = some d)
    (hcn : c.thin = none) (hdn : d.thin = none) :
    hasLVGDiff sc lsc ≠ .ok false := by
  unfold hasLVGDiff
  rw [hp, hl]
  show (if cur.length ≠ lvm.lvgs.length then Except.ok true
        else lvgPairDiff lvm.typ cur lvm.lvgs) ≠ Except.ok false
  rw [ht]
  by_cases hlen : cur.length = lvm.lvgs.length
  · simp only [hlen, ne_eq, not_true_eq_false, if_false]
    exact lvgPairDiff_ne_ok_false cur lvm.lvgs i c d hc hd hcn hdn
  · simp [hlen]

/-- C10 counterexample: with a name mismatch at an earlier position,
`hasLVGDiff` reports a diff (`ok true`) even though a later position has
no thin pool configured on either side — it does not return an error for
every such spec. -/
theorem C10_counterexample :
    (exC10sc.lvgParams.getD []).get? 1 = some { name := "p", thin := none } ∧
      (exC10lsc.lvm.map (fun l => l.lvgs.get? 1)).getD none =
        some { name := "p", thin := none } ∧
      (exC10lsc.lvm.map (fun l => l.typ)).getD "" = Thin ∧
      hasLVGDiff exC10sc exC10lsc = .ok true := by
  decide

/-- C10 amended: for a Thin-type spec with a position where neither the
derived storage class nor the spec configures a thin pool, `hasLVGDiff`
never reports "no diff" (it reports a diff or fails), and consequently
such a spec never classifies as converged: the classification is Update
or an error, never the no-op. -/
theorem C10_amended :
    (∀ (sc : SC) (lsc : Lsc) (cur : List LscLVG) (lvm : LscLvm) (i : Nat) (c d : LscLVG),
      sc.lvgParams = some cur →
      lsc.lvm = some lvm →
      lvm.typ = Thin →
      cur.get? i = some c →
      lvm.lvgs.get? i = some d →
      c.thin = none →
      d.thin = none →
      hasLVGDiff sc lsc ≠ .ok false)
    ∧ (∀ (scs : List SC) (sc : SC) (lsc : Lsc) (cur : List LscLVG) (lvm : LscLvm) (i : Nat)
        (c d : LscLVG) (st : LscStatus),
      sc.lvgParams = some cur →
      lsc.lvm = some lvm →
      lvm.typ = Thin →
      cur.get? i = some c →
      lvm.lvgs.get? i = some d →
      c.thin = none →
      d.thin = none →
      lsc.deletionTimestamp = none →
      lsc.status = some st →
      scs.find? (fun t => t.name == lsc.name) = some sc →
      sc.provisioner = LocalStorageClassProvisioner →
      identifyReconcileFunc scs lsc ≠ .ok .skip) := by
  constructor
  · intro sc lsc cur lvm i c d hp hl ht hc hd hcn hdn
    exact hasLVGDiff_never_no_diff sc lsc cur lvm i c d hp hl ht hc hd hcn hdn
  · intro scs sc lsc cur lvm i c d st hp hl ht hc hd hcn hdn h1 h2 h3 h4
    have hdiff := hasLVGDiff_never_no_diff sc lsc cur lvm i c d hp hl ht hc hd hcn hdn
    have hmem : sc ∈ scs := List.mem_of_find?_eq_some h3
    have hname : (sc.name == lsc.name) = true := by
      have := List.find?_some h3
      simpa using this
    have hcr : shouldReconcileByCreateFunc scs lsc = false := by
      unfold shouldReconcileByCreateFunc
      rw [h1]
      have hany : scs.any (fun t => t.name == lsc.name && lsc.status.isSome) = true :=
        List.any_eq_true.mpr ⟨sc, hmem, by simp [hname, h2]⟩
      simp [hany]
    unfold identifyReconcileFunc shouldReconcileByDeleteFunc
    rw [h1, hcr]
    simp only [Option.isSome_none, Bool.false_eq_true, if_false]
    unfold shouldReconcileByUpdateFunc
    rw [h1, h3]
    simp only [Option.isSome_none, Bool.false_eq_true, if_false]
    rw [h4]
    simp only [beq_self_eq_true, if_true]
    cases hres : hasLVGDiff sc lsc with
    | error e => simp
    | ok b =>
      cases b with
      | false => exact absurd hres hdiff
      | true => simp

/-- C10 witness: a Thin spec whose single binding lacks a thin pool on
both sides never reports "no diff" and never classifies as converged. -/
theorem C10_witness :
    hasLVGDiff exC10wsc exC10wlsc ≠ .ok false ∧
      identifyReconcileFunc [exC10wsc] exC10wlsc ≠ .ok .skip := by
  constructor
  · exact C10_amended.1 exC10wsc exC10wlsc [{ name := "a", thin := none }]
      { typ := "Thin", lvgs := [{ name := "a", thin := none }] } 0
      { name := "a", thin := none } { name := "a", thin := none }
      rfl rfl rfl rfl rfl rfl rfl
  · exact C10_amended.2 [exC10wsc] exC10wsc exC10wlsc [{ name := "a", thin := none }]
      { typ := "Thin", lvgs := [{ name := "a", thin := none }] } 0
      { name := "a", thin := none } { name := "a", thin := none }
      { phase := "Created", reason := "" }
      rfl rfl rfl rfl rfl rfl rfl rfl rfl (by decide) rfl

/-- C3: the validation verdict is the conjunction of all checks, and each
failing check's reason is contained in the returned message (so a spec
failing several checks reports all of them at once). -/
theorem C3_validation_complete :
    (∀ (scList : List SC) (lvgList : List Lvg) (lsc : Lsc) (lvm : LscLvm),
      lsc.lvm = some lvm →
      ((validateLocalStorageClass scList lvgList lsc).1 = true ↔
        (findUnmanagedDuplicatedSC scList lsc = "" ∧
         findLVMVolumeGroupsOnTheSameNode lvgList lvm.lvgs = [] ∧
         findNonexistentLVGs lvgList lvm.lvgs = [] ∧
         (if lvm.typ = Thin then findNonexistentThinPools lvgList lvm.lvgs = []
          else findAnyThinPool lvm.lvgs = []))))
    ∧ (∀ (scList : List SC) (lvgList : List Lvg) (lsc : Lsc) (lvm : LscLvm),
      lsc.lvm = some lvm →
      findUnmanagedDuplicatedSC scList lsc ≠ "" →
      mentions (validateLocalStorageClass scList lvgList lsc).2
        (collisionReason (findUnmanagedDuplicatedSC scList lsc)))
    ∧ (∀ (scList : List SC) (lvgList : List Lvg) (lsc : Lsc) (lvm : LscLvm),
      lsc.lvm = some lvm →
      findLVMVolumeGroupsOnTheSameNode lvgList lvm.lvgs ≠ [] →
      mentions (validateLocalStorageClass scList lvgList lsc).2
        (sameNodeReason (findLVMVolumeGroupsOnTheSameNode lvgList lvm.lvgs)))
    ∧ (∀ (scList : List SC) (lvgList : List Lvg) (lsc : Lsc) (lvm : LscLvm),
      lsc.lvm = some lvm →
      findNonexistentLVGs lvgList lvm.lvgs ≠ [] →
      mentions (validateLocalStorageClass scList lvgList lsc).2
        (nonexistentLVGsReason (findNonexistentLVGs lvgList lvm.lvgs)))
    ∧ (∀ (scList : List SC) (lvgList : List Lvg) (lsc : Lsc) (lvm : LscLvm),
      lsc.lvm = some lvm →
      lvm.typ = Thin →
      findNonexistentThinPools lvgList lvm.lvgs ≠ [] →
      mentions (validateLocalStorageClass scList lvgList lsc).2
        (nonexistentTpReason (findNonexistentThinPools lvgList lvm.lvgs)))
    ∧ (∀ (scList : List SC) (lvgList : List Lvg) (lsc : Lsc) (lvm : LscLvm),
      lsc.lvm = some lvm →
      lvm.typ ≠ Thin →
      findAnyThinPool lvm.lvgs ≠ [] →
      mentions (validateLocalStorageClass scList lvgList lsc).2
        (thickTpReason (findAnyThinPool lvm.lvgs))) := by
  refine ⟨?_, ?_, ?_, ?_, ?_, ?_⟩
  · intro scList lvgList lsc lvm hlvm
    unfold validateLocalStorageClass
    rw [hlvm]
    by_cases ht : lvm.typ = Thin
    · simp [ht, List.isEmpty_iff, and_assoc]
    · simp [ht, List.isEmpty_iff, and_assoc]
  · intro scList lvgList lsc lvm hlvm hne
    unfold validateLocalStorageClass
    rw [hlvm]
    have h1 : (findUnmanagedDuplicatedSC scList lsc != "") = true := by
      simp [hne]
    simp only [h1, if_true]
    rw [String.append_assoc, String.append_assoc]
    exact mentions_of_head _ _
  · intro scList lvgList lsc lvm hlvm hne
    unfold validateLocalStorageClass
    rw [hlvm]
    have h1 : (findLVMVolumeGroupsOnTheSameNode lvgList lvm.lvgs).isEmpty = false := by
      cases h : (findLVMVolumeGroupsOnTheSameNode lvgList lvm.lvgs).isEmpty with
      | false => rfl
      | true => exact absurd (List.isEmpty_iff.mp h) hne
    simp only [h1, Bool.not_false, if_true]
    rw [String.append_assoc]
    exact mentions_of_parts _ _ _
  · intro scList lvgList lsc lvm hlvm hne
    unfold validateLocalStorageClass
    rw [hlvm]
    have h1 : (findNonexistentLVGs lvgList lvm.lvgs).isEmpty = false := by
      cases h : (findNonexistentLVGs lvgList lvm.lvgs).isEmpty with
      | false => rfl
      | true => exact absurd (List.isEmpty_iff.mp h) hne
    simp only [h1, Bool.not_false, if_true]
    exact mentions_of_parts _ _ _
  · intro scList lvgList lsc lvm hlvm ht hne
    unfold validateLocalStorageClass
    rw [hlvm]
    have h1 : (findNonexistentThinPools lvgList lvm.lvgs).isEmpty = false := by
      cases h : (findNonexistentThinPools lvgList lvm.lvgs).isEmpty with
      | false => rfl
      | true => exact absurd (List.isEmpty_iff.mp h) hne
    simp only [ht, beq_self_eq_true, if_true, h1, Bool.not_false]
    exact mentions_of_suffix _ _
  · intro scList lvgList lsc lvm hlvm ht hne
    unfold validateLocalStorageClass
    rw [hlvm]
    have hty : (lvm.typ == Thin) = false := by
      simp [ht]
    have h1 : (findAnyThinPool lvm.lvgs).isEmpty = false := by
      cases h : (findAnyThinPool lvm.lvgs).isEmpty with
      | false => rfl
      | true => exact absurd (List.isEmpty_iff.mp h) hne
    simp only [hty, Bool.false_eq_true, if_false, h1, Bool.not_false, if_true]
    exact mentions_of_suffix _ _

/-- C3 witness: the scenario spec using two volume groups on one node and
a nonexistent thin pool fails validation with both reasons in the
message. -/
theorem C3_witness :
    (validateLocalStorageClass [] exC3lvgList exC3lsc).1 = false ∧
      mentions (validateLocalStorageClass [] exC3lvgList exC3lsc).2
        (sameNodeReason (findLVMVolumeGroupsOnTheSameNode exC3lvgList exC3lvm.lvgs)) ∧
      mentions (validateLocalStorageClass [] exC3lvgList exC3lsc).2
        (nonexistentTpReason (findNonexistentThinPools exC3lvgList exC3lvm.lvgs)) := by
  refine ⟨?_, ?_, ?_⟩
  · have h := (C3_validation_complete.1 [] exC3lvgList exC3lsc exC3lvm rfl)
    rw [Bool.eq_false_iff, ne_eq, h]
    decide
  · exact C3_validation_complete.2.2.1 [] exC3lvgList exC3lsc exC3lvm rfl (by decide)
  · exact C3_validation_complete.2.2.2.2.1 [] exC3lvgList exC3lsc exC3lvm rfl rfl (by decide)

/-! ### Store-operation lemmas for the reconcile state machine -/

theorem clUpdateLSC_ok {o : Oracle} {s : Cluster} {lsc : Lsc} {s1 : Cluster}
    (h : clUpdateLSC o s lsc = .ok s1) : s1.scs = s.scs ∧ s1.lvgs = s.lvgs ∧ s1.lsc = lsc := by
  unfold clUpdateLSC at h
  split at h
  · cases h
    exact ⟨rfl, rfl, rfl⟩
  · cases h

theorem clUpdateLSC_err {o : Oracle} {s : Cluster} {lsc : Lsc} {sE : Cluster}
    (h : clUpdateLSC o s lsc = .error sE) : sE = s := by
  unfold clUpdateLSC at h
  split at h
  · cases h
  · cases h
    rfl

theorem clUpdateSC_err {o : Oracle} {s : Cluster} {t : SC} {sE : Cluster}
    (h : clUpdateSC o s t = .error sE) : sE = s := by
  unfold clUpdateSC at h
  split at h
  · cases h
  · cases h
    rfl

theorem clCreateSC_err {o : Oracle} {s : Cluster} {t : SC} {sE : Cluster}
    (h : clCreateSC o s t = .error sE) : sE = s := by
  unfold clCreateSC at h
  split at h
  · cases h
  · cases h
    rfl

theorem clDeleteSC_err {o : Oracle} {s : Cluster} {t : SC} {sE : Cluster}
    (h : clDeleteSC o s t = .error sE) : sE = s := by
  unfold clDeleteSC at h
  split at h
  · cases h
  · cases h
    rfl

theorem clUpdateSC_mem {o : Oracle} {s : Cluster} {t : SC} {s1 : Cluster} {sc : SC}
    (h : clUpdateSC o s t = .ok s1) (hm : sc ∈ s.scs) (hn : sc.name ≠ t.name) :
    sc ∈ s1.scs := by
  unfold clUpdateSC at h
  split at h
  · cases h
    refine List.mem_map.mpr ⟨sc, hm, ?_⟩
    simp [hn]
  · cases h

theorem clUpdateSC_lsc {o : Oracle} {s : Cluster} {t : SC} {s1 : Cluster}
    (h : clUpdateSC o s t = .ok s1) : s1.lsc = s.lsc ∧ s1.lvgs = s.lvgs := by
  unfold clUpdateSC at h
  split at h
  · cases h
    exact ⟨rfl, rfl⟩
  · cases h

theorem clCreateSC_mem {o : Oracle} {s : Cluster} {t : SC} {s1 : Cluster} {sc : SC}
    (h : clCreateSC o s t = .ok s1) (hm : sc ∈ s.scs) : sc ∈ s1.scs := by
  unfold clCreateSC at h
  split at h
  · cases h
    exact List.mem_append_left _ hm
  · cases h

theorem clDeleteSC_mem {o : Oracle} {s : Cluster} {t : SC} {s1 : Cluster} {sc : SC}
    (h : clDeleteSC o s t = .ok s1) (hm : sc ∈ s.scs) (hn : sc.name ≠ t.name) :
    sc ∈ s1.scs := by
  unfold clDeleteSC at h
  split at h
  · cases h
    exact List.mem_filter.mpr ⟨hm, by simp [hn]⟩
  · cases h

theorem clDeleteSC_ok_names {o : Oracle} {s : Cluster} {t : SC} {s1 : Cluster}
    (h : clDeleteSC o s t = .ok s1) : ∀ u ∈ s1.scs, u.name ≠ t.name := by
  unfold clDeleteSC at h
  split at h
  · cases h
    intro u hu
    have := (List.mem_filter.mp hu).2
    simpa using this
  · cases h

theorem removeFinSC_mem {o : Oracle} {s : Cluster} {t : SC} {s1 : Cluster} {sc : SC}
    (h : removeLocalSCFinalizerIfExistsForSC o s t = .ok s1) (hm : sc ∈ s.scs)
    (hn : sc.name ≠ t.name) : sc ∈ s1.scs := by
  unfold removeLocalSCFinalizerIfExistsForSC at h
  split at h
  · exact clUpdateSC_mem h hm hn
  · cases h
    exact hm

theorem removeFinSC_scs_names {o : Oracle} {s : Cluster} {t : SC} {s1 : Cluster}
    (h : removeLocalSCFinalizerIfExistsForSC o s t = .ok s1) :
    ∀ u ∈ s1.scs, u.name ≠ t.name → u ∈ s.scs := by
  unfold removeLocalSCFinalizerIfExistsForSC at h
  split at h
  · unfold clUpdateSC at h
    split at h
    · cases h
      intro u hu hn
      obtain ⟨v, hv, hveq⟩ := List.mem_map.mp hu
      by_cases hvn : v.name == t.name
      · rw [if_pos hvn] at hveq
        subst hveq
        simp at hn
      · rw [if_neg hvn] at hveq
        subst hveq
        exact hv
    · cases h
  · cases h
    intro u hu _
    exact hu

theorem removeFinSC_err {o : Oracle} {s : Cluster} {t : SC} {sE : Cluster}
    (h : removeLocalSCFinalizerIfExistsForSC o s t = .error sE) : sE = s := by
  unfold removeLocalSCFinalizerIfExistsForSC at h
  split at h
  · exact clUpdateSC_err h
  · cases h

theorem removeFinSC_lsc {o : Oracle} {s : Cluster} {t : SC} {s1 : Cluster}
    (h : removeLocalSCFinalizerIfExistsForSC o s t = .ok s1) : s1.lsc = s.lsc := by
  unfold removeLocalSCFinalizerIfExistsForSC at h
  split at h
  · exact (clUpdateSC_lsc h).1
  · cases h
    rfl

theorem deleteStorageClass_mem {o : Oracle} {s : Cluster} {t : SC} {s1 : Cluster} {sc : SC}
    (h : deleteStorageClass o s t = .ok s1) (hm : sc ∈ s.scs) (hn : sc.name ≠ t.name) :
    sc ∈ s1.scs := by
  unfold deleteStorageClass at h
  split at h
  · cases h
  · cases hrem : removeLocalSCFinalizerIfExistsForSC o s t with
    | error e =>
      rw [hrem] at h
      cases h
    | ok s0 =>
      rw [hrem] at h
      exact clDeleteSC_mem h (removeFinSC_mem hrem hm hn) hn

theorem deleteStorageClass_ok_names {o : Oracle} {s : Cluster} {t : SC} {s1 : Cluster}
    (h : deleteStorageClass o s t = .ok s1) : ∀ u ∈ s1.scs, u.name ≠ t.name := by
  unfold deleteStorageClass at h
  split at h
  · cases h
  · cases hrem : removeLocalSCFinalizerIfExistsForSC o s t with
    | error e =>
      rw [hrem] at h
      cases h
    | ok s0 =>
      rw [hrem] at h
      exact clDeleteSC_ok_names h

theorem deleteStorageClass_err_mem {o : Oracle} {s : Cluster} {t : SC} {sE : Cluster} {sc : SC}
    (h : deleteStorageClass o s t = .error sE) (hm : sc ∈ s.scs) (hn : sc.name ≠ t.name) :
    sc ∈ sE.scs := by
  unfold deleteStorageClass at h
  split at h
  · cases h
    exact hm
  · cases hrem : removeLocalSCFinalizerIfExistsForSC o s t with
    | error e =>
      rw [hrem] at h
      cases h
      rw [removeFinSC_err hrem]
      exact hm
    | ok s0 =>
      rw [hrem] at h
      rw [clDeleteSC_err h]
      exact removeFinSC_mem hrem hm hn

theorem deleteStorageClass_err_lsc {o : Oracle} {s : Cluster} {t : SC} {sE : Cluster}
    (h : deleteStorageClass o s t = .error sE) : sE.lsc = s.lsc := by
  unfold deleteStorageClass at h
  split at h
  · cases h
    rfl
  · cases hrem : removeLocalSCFinalizerIfExistsForSC o s t with
    | error e =>
      rw [hrem] at h
      cases h
      rw [removeFinSC_err hrem]
    | ok s0 =>
      rw [hrem] at h
      rw [clDeleteSC_err h]
      exact removeFinSC_lsc hrem

theorem recreateStorageClass_mem {o : Oracle} {s : Cluster} {t : SC} {s1 : Cluster} {sc : SC}
    (h : recreateStorageClass o s t = .ok s1) (hm : sc ∈ s.scs) (hn : sc.name ≠ t.name) :
    sc ∈ s1.scs := by
  unfold recreateStorageClass at h
  cases hdel : deleteStorageClass o s t with
  | error e =>
    rw [hdel] at h
    cases h
  | ok s0 =>
    rw [hdel] at h
    exact clCreateSC_mem h (deleteStorageClass_mem hdel hm hn)

theorem recreate_err_mem {o : Oracle} {s : Cluster} {t : SC} {sE : Cluster} {sc : SC}
    (h : recreateStorageClass o s t = .error sE) (hm : sc ∈ s.scs) (hn : sc.name ≠ t.name) :
    sc ∈ sE.scs := by
  unfold recreateStorageClass at h
  cases hdel : deleteStorageClass o s t with
  | error e =>
    rw [hdel] at h
    cases h
    exact deleteStorageClass_err_mem hdel hm hn
  | ok s0 =>
    rw [hdel] at h
    rw [clCreateSC_err h]
    exact deleteStorageClass_mem hdel hm hn

theorem phaseOrKeep_scs (o : Oracle) (s : Cluster) (p r : String) :
    (phaseOrKeep o s p r).scs = s.scs ∧ (phaseOrKeep o s p r).lsc.finalizers = s.lsc.finalizers ∧
      (phaseOrKeep o s p r).lsc.name = s.lsc.name := by
  unfold phaseOrKeep updateLocalStorageClassPhase clUpdateLSC
  split
  · rename_i s1 h
    split at h
    · cases h
      exact ⟨rfl, rfl, rfl⟩
    · cases h
  · rename_i sE h
    split at h
    · cases h
    · cases h
      exact ⟨rfl, rfl, rfl⟩

theorem updatePhase_ok {o : Oracle} {s : Cluster} {p r : String} {s1 : Cluster}
    (h : updateLocalStorageClassPhase o s p r = .ok s1) :
    s1.scs = s.scs ∧ s1.lvgs = s.lvgs ∧ s1.lsc.finalizers = s.lsc.finalizers ∧
      s1.lsc.name = s.lsc.name := by
  unfold updateLocalStorageClassPhase at h
  obtain ⟨h1, h2, h3⟩ := clUpdateLSC_ok h
  exact ⟨h1, h2, by rw [h3], by rw [h3]⟩

theorem updatePhase_err {o : Oracle} {s : Cluster} {p r : String} {sE : Cluster}
    (h : updateLocalStorageClassPhase o s p r = .error sE) : sE = s := by
  unfold updateLocalStorageClassPhase at h
  exact clUpdateLSC_err h

theorem addFinalizerLSC_ok {o : Oracle} {s : Cluster} {s1 : Cluster}
    (h : addFinalizerIfNotExistsForLSC o s = .ok s1) :
    s1.scs = s.scs ∧ s1.lvgs = s.lvgs ∧ s1.lsc.name = s.lsc.name := by
  unfold addFinalizerIfNotExistsForLSC at h
  obtain ⟨h1, h2, h3⟩ := clUpdateLSC_ok h
  refine ⟨h1, h2, ?_⟩
  rw [h3]
  split <;> rfl

theorem addFinalizerLSC_err {o : Oracle} {s : Cluster} {sE : Cluster}
    (h : addFinalizerIfNotExistsForLSC o s = .error sE) : sE = s := by
  unfold addFinalizerIfNotExistsForLSC at h
  exact clUpdateLSC_err h

theorem addFinalizerSC_err {o : Oracle} {s : Cluster} {t : SC} {sE : Cluster}
    (h : addFinalizerIfNotExistsForSC o s t = .error sE) : sE = s := by
  unfold addFinalizerIfNotExistsForSC at h
  split at h <;> exact clUpdateSC_err h

theorem removeFinLSC_err {o : Oracle} {s : Cluster} {sE : Cluster}
    (h : removeLocalSCFinalizerIfExistsForLSC o s = .error sE) : sE = s := by
  unfold removeLocalSCFinalizerIfExistsForLSC at h
  split at h
  · exact clUpdateLSC_err h
  · cases h

theorem addFinalizerSC_mem {o : Oracle} {s : Cluster} {t : SC} {s1 : Cluster} {sc : SC}
    (h : addFinalizerIfNotExistsForSC o s t = .ok s1) (hm : sc ∈ s.scs)
    (hn : sc.name ≠ t.name) : sc ∈ s1.scs := by
  unfold addFinalizerIfNotExistsForSC at h
  split at h
  · exact clUpdateSC_mem h hm hn
  · exact clUpdateSC_mem h hm (by simpa using hn)

theorem createIfNotExists_mem {o : Oracle} {scl : List SC} {s : Cluster} {t : SC}
    {b : Bool} {s1 : Cluster} {sc : SC}
    (h : createStorageClassIfNotExists o scl s t = .ok (b, s1)) (hm : sc ∈ s.scs) :
    sc ∈ s1.scs := by
  unfold createStorageClassIfNotExists at h
  split at h
  · cases h
    exact hm
  · cases hc : clCreateSC o s t with
    | error e =>
      rw [hc] at h
      cases h
    | ok s0 =>
      rw [hc] at h
      cases h
      exact clCreateSC_mem hc hm

theorem createIfNotExists_err_mem {o : Oracle} {scl : List SC} {s : Cluster} {t : SC}
    {sE : Cluster} {sc : SC}
    (h : createStorageClassIfNotExists o scl s t = .error sE) (hm : sc ∈ s.scs) :
    sc ∈ sE.scs := by
  unfold createStorageClassIfNotExists at h
  split at h
  · cases h
  · cases hc : clCreateSC o s t with
    | error e =>
      rw [hc] at h
      cases h
      rw [clCreateSC_err hc]
      exact hm
    | ok s0 =>
      rw [hc] at h
      cases h

theorem createTail_mem {o : Oracle} {s : Cluster} {t : SC} {sc : SC}
    (hm : sc ∈ s.scs) (hn : sc.name ≠ t.name) :
    sc ∈ (reconcileLSCCreateTail o s t).2.2.scs := by
  unfold reconcileLSCCreateTail
  split
  · rename_i sE hadd
    rw [addFinalizerSC_err hadd]
    exact hm
  · rename_i s1 hadd
    split
    · rename_i sE hup
      rw [updatePhase_err hup]
      exact addFinalizerSC_mem hadd hm hn
    · rename_i s2 hup
      rw [(updatePhase_ok hup).1]
      exact addFinalizerSC_mem hadd hm hn

theorem deleteTail_state (o : Oracle) (s : Cluster) :
    (reconcileLSCDeleteTail o s).2.2.scs = s.scs := by
  unfold reconcileLSCDeleteTail
  split
  · rename_i sE h
    rw [(phaseOrKeep_scs o sE FailedStatusPhase "finalizer").1, removeFinLSC_err h]
  · rename_i s1 h
    unfold removeLocalSCFinalizerIfExistsForLSC at h
    split at h
    · exact (clUpdateLSC_ok h).1
    · cases h
      rfl

theorem updateTail_scs (o : Oracle) (s : Cluster) :
    (reconcileLSCUpdateTail o s).2.2.scs = s.scs := by
  unfold reconcileLSCUpdateTail
  split
  · rename_i sE h
    rw [updatePhase_err h]
  · rename_i s1 h
    exact (updatePhase_ok h).1

theorem configure_ok {lsc : Lsc} {sc : SC} (h : configureStorageClass lsc = .ok sc) :
    sc.name = lsc.name ∧ sc.provisioner = LocalStorageClassProvisioner := by
  unfold configureStorageClass at h
  split at h
  · cases h
  · cases h
    exact ⟨rfl, rfl⟩

/-! ### Path-level preservation of storage classes named differently from
the reconciled spec -/

theorem createFunc_pres {o : Oracle} {s : Cluster} {sc : SC}
    (hm : sc ∈ s.scs) (hn : sc.name ≠ s.lsc.name) :
    sc ∈ (reconcileLSCCreateFunc o s).2.2.scs := by
  simp only [reconcileLSCCreateFunc]
  split
  · rename_i sE hadd
    rw [addFinalizerLSC_err hadd]
    exact hm
  · rename_i s1 hadd
    obtain ⟨hscs, hlvgs, hname⟩ := addFinalizerLSC_ok hadd
    have hm1 : sc ∈ s1.scs := hscs ▸ hm
    have hn1 : sc.name ≠ s1.lsc.name := by
      rw [hname]
      exact hn
    split
    · rw [(phaseOrKeep_scs o s1 _ _).1]
      exact hm1
    · split
      · split
        · rename_i sE hup
          rw [updatePhase_err hup]
          exact hm1
        · rename_i s2 hup
          rw [(updatePhase_ok hup).1]
          exact hm1
      · rename_i sct hcfg
        have hnsct : sc.name ≠ sct.name := by
          rw [(configure_ok hcfg).1]
          exact hn1
        split
        · rename_i sE hcr
          have hmE : sc ∈ sE.scs := createIfNotExists_err_mem hcr hm1
          split
          · rename_i sE2 hup
            rw [updatePhase_err hup]
            exact hmE
          · rename_i s2 hup
            rw [(updatePhase_ok hup).1]
            exact hmE
        · rename_i created s2 hcr
          have hm2 : sc ∈ s2.scs := createIfNotExists_mem hcr hm1
          split
          · exact createTail_mem hm2 hnsct
          · split
            · rw [(phaseOrKeep_scs o s2 _ _).1]
              exact hm2
            · split
              · rename_i sE hrec
                rw [(phaseOrKeep_scs o sE _ _).1]
                exact recreate_err_mem hrec hm2 hnsct
              · rename_i s3 hrec
                exact createTail_mem (recreateStorageClass_mem hrec hm2 hnsct) hnsct
            · exact createTail_mem hm2 hnsct

theorem updateFunc_pres {o : Oracle} {s : Cluster} {sc : SC}
    (hm : sc ∈ s.scs) (hn : sc.name ≠ s.lsc.name) :
    sc ∈ (reconcileLSCUpdateFunc o s).2.2.scs := by
  simp only [reconcileLSCUpdateFunc]
  split
  · rw [(phaseOrKeep_scs o s _ _).1]
    exact hm
  · split
    · rw [(phaseOrKeep_scs o s _ _).1]
      exact hm
    · rename_i sc0 hfind
      split
      · rw [(phaseOrKeep_scs o s _ _).1]
        exact hm
      · split
        · split
          · split
            · rename_i sE hup
              rw [updatePhase_err hup]
              exact hm
            · rename_i s1 hup
              rw [(updatePhase_ok hup).1]
              exact hm
          · rename_i sc2 hcfg
            have hn2 : sc.name ≠ sc2.name := by
              rw [(configure_ok hcfg).1]
              exact hn
            split
            · rename_i sE hrec
              rw [(phaseOrKeep_scs o sE _ _).1]
              exact recreate_err_mem hrec hm hn2
            · rename_i s1 hrec
              rw [updateTail_scs]
              exact recreateStorageClass_mem hrec hm hn2
        · rw [updateTail_scs]
          exact hm

theorem deleteFunc_pres {o : Oracle} {s : Cluster} {sc : SC}
    (hm : sc ∈ s.scs) (hn : sc.name ≠ s.lsc.name) :
    sc ∈ (reconcileLSCDeleteFunc o s).2.2.scs := by
  simp only [reconcileLSCDeleteFunc]
  split
  · rename_i sc0 hfind
    have hname0 : sc0.name = s.lsc.name := by
      have := List.find?_some hfind
      simpa using this
    have hnsc0 : sc.name ≠ sc0.name := by
      rw [hname0]
      exact hn
    split
    · rw [deleteTail_state]
      exact hm
    · split
      · rename_i sE hdel
        rw [(phaseOrKeep_scs o sE _ _).1]
        exact deleteStorageClass_err_mem hdel hm hnsc0
      · rename_i s1 hdel
        rw [deleteTail_state]
        exact deleteStorageClass_mem hdel hm hnsc0
  · rw [deleteTail_state]
    exact hm

theorem runEvent_pres {o : Oracle} {s : Cluster} {sc : SC}
    (hm : sc ∈ s.scs) (hn : sc.name ≠ s.lsc.name) :
    sc ∈ (runEventReconcile o s).2.2.scs := by
  unfold runEventReconcile
  split
  · exact hm
  · exact createFunc_pres hm hn
  · exact updateFunc_pres hm hn
  · exact deleteFunc_pres hm hn
  · exact hm

/-! ### Same-named storage classes of a foreign provisioner -/

theorem find?_name_unique {scs : List SC} {sc : SC} {n : String}
    (hnd : nodupNames scs) (hm : sc ∈ scs) (hname : sc.name = n) :
    scs.find? (fun t => t.name == n) = some sc := by
  induction scs with
  | nil => cases hm
  | cons t rest ih =>
    have hnd' : t.name ∉ rest.map (fun u => u.name) ∧ nodupNames rest := by
      have := hnd
      unfold nodupNames at this ⊢
      rw [List.map_cons, List.nodup_cons] at this
      exact this
    by_cases ht : t.name = n
    · rw [List.find?_cons_of_pos _ (by simp [ht])]
      cases hm with
      | head => rfl
      | tail _ hrest =>
        exfalso
        apply hnd'.1
        rw [ht, ← hname]
        exact List.mem_map_of_mem (fun u => u.name) hrest
    · rw [List.find?_cons_of_neg _ (by simp [ht])]
      cases hm with
      | head => exact absurd hname ht
      | tail _ hrest => exact ih hnd'.2 hrest

theorem findUnmanaged_ne_empty {scs : List SC} {lsc : Lsc} {sc : SC}
    (hm : sc ∈ scs) (hname : sc.name = lsc.name) (hnn : lsc.name ≠ "")
    (hprov : sc.provisioner ≠ LocalStorageClassProvisioner) :
    findUnmanagedDuplicatedSC scs lsc ≠ "" := by
  unfold findUnmanagedDuplicatedSC
  have hsome : (scs.find? (fun t =>
      t.name == lsc.name && t.provisioner != LocalStorageClassProvisioner)).isSome := by
    rw [List.find?_isSome]
    exact ⟨sc, hm, by simp [hname, hprov]⟩
  obtain ⟨u, hu⟩ := Option.isSome_iff_exists.mp hsome
  rw [hu]
  have hp := List.find?_some hu
  have huname : u.name = lsc.name := by
    simp only [Bool.and_eq_true, beq_iff_eq] at hp
    exact hp.1
  show u.name ≠ ""
  rw [huname]
  exact hnn

theorem validate_false_of_unmanaged {scs : List SC} {lvgs : List Lvg} {lsc : Lsc}
    (h : findUnmanagedDuplicatedSC scs lsc ≠ "") :
    (validateLocalStorageClass scs lvgs lsc).1 = false := by
  unfold validateLocalStorageClass
  have h0 : (findUnmanagedDuplicatedSC scs lsc == "") = false := by
    simp [h]
  cases hl : lsc.lvm with
  | none => rfl
  | some lvm => simp [h0]

theorem identify_update_elim {scs : List SC} {lsc : Lsc}
    (h : identifyReconcileFunc scs lsc = .ok .update) :
    ∃ sc, scs.find? (fun t => t.name == lsc.name) = some sc ∧
      sc.provisioner = LocalStorageClassProvisioner := by
  unfold identifyReconcileFunc at h
  split at h
  · simp at h
  · split at h
    · simp at h
    · split at h
      · simp at h
      · rename_i hupd
        unfold shouldReconcileByUpdateFunc at hupd
        split at hupd
        · simp at hupd
        · split at hupd
          · rename_i sc0 hfind
            split at hupd
            · rename_i hprov
              exact ⟨sc0, hfind, by simpa using hprov⟩
            · simp at hupd
          · simp at hupd
      · simp at h

theorem createFunc_foreign_same {o : Oracle} {s : Cluster}
    (h : findUnmanagedDuplicatedSC s.scs s.lsc ≠ "") :
    (reconcileLSCCreateFunc o s).2.2.scs = s.scs := by
  simp only [reconcileLSCCreateFunc]
  split
  · rename_i sE hadd
    rw [addFinalizerLSC_err hadd]
  · rename_i s1 hadd
    obtain ⟨hscs, hlvgs, hname⟩ := addFinalizerLSC_ok hadd
    have hun : findUnmanagedDuplicatedSC s1.scs s1.lsc ≠ "" := by
      unfold findUnmanagedDuplicatedSC at h ⊢
      simp only [hscs, hname]
      exact h
    have hv : (validateLocalStorageClass s1.scs s1.lvgs s1.lsc).1 = false :=
      validate_false_of_unmanaged hun
    split
    · rw [(phaseOrKeep_scs o s1 _ _).1]
      exact hscs
    · rename_i hvt
      exfalso
      rw [hv] at hvt
      exact hvt rfl

theorem deleteFunc_foreign {o : Oracle} {s : Cluster} {sc : SC}
    (hfind : s.scs.find? (fun t => t.name == s.lsc.name) = some sc)
    (hprov : sc.provisioner ≠ LocalStorageClassProvisioner) :
    (reconcileLSCDeleteFunc o s).2.2.scs = s.scs := by
  have hpneq : (sc.provisioner != LocalStorageClassProvisioner) = true := by
    simp [hprov]
  simp only [reconcileLSCDeleteFunc, hfind, hpneq, if_true]
  exact deleteTail_state o s

/-- C7: a derived storage class whose provisioner is not this system's is
never mutated or deleted by any reconcile path; and on the delete path the
spec's finalizer is only removed once the same-named storage class owned
by this provisioner has been deleted (or never existed): if it survives
the invocation, the finalizer survives too. -/
theorem C7_provisioner_ownership :
    (∀ (o : Oracle) (s : Cluster) (sc : SC),
      nodupNames s.scs →
      s.lsc.name ≠ "" →
      sc ∈ s.scs →
      sc.provisioner ≠ LocalStorageClassProvisioner →
      sc ∈ (runEventReconcile o s).2.2.scs)
    ∧ (∀ (o : Oracle) (s : Cluster),
      nodupNames s.scs →
      LocalStorageClassFinalizerName ∈ s.lsc.finalizers →
      (∃ sc, sc ∈ (reconcileLSCDeleteFunc o s).2.2.scs ∧ sc.name = s.lsc.name ∧
        sc.provisioner = LocalStorageClassProvisioner) →
      LocalStorageClassFinalizerName ∈ (reconcileLSCDeleteFunc o s).2.2.lsc.finalizers) := by
  constructor
  · intro o s sc hnd hnn hm hprov
    by_cases hn : sc.name = s.lsc.name
    · unfold runEventReconcile
      split
      · exact hm
      · rw [createFunc_foreign_same (findUnmanaged_ne_empty hm hn hnn hprov)]
        exact hm
      · rename_i hid
        exfalso
        obtain ⟨u, hufind, huprov⟩ := identify_update_elim hid
        have huniq := find?_name_unique hnd hm hn
        rw [huniq] at hufind
        injection hufind with hu
        exact hprov (hu ▸ huprov)
      · rw [deleteFunc_foreign (find?_name_unique hnd hm hn) hprov]
        exact hm
      · exact hm
    · exact runEvent_pres hm hn
  · intro o s hnd hmark hex
    cases hfind : s.scs.find? (fun t => t.name == s.lsc.name) with
    | none =>
      have hres : (reconcileLSCDeleteFunc o s).2.2.scs = s.scs := by
        simp only [reconcileLSCDeleteFunc, hfind]
        exact deleteTail_state o s
      rw [hres] at hex
      obtain ⟨u, hu, hun, _⟩ := hex
      have := List.find?_eq_none.mp hfind u hu
      simp [hun] at this
    | some sc0 =>
      have hname0 : sc0.name = s.lsc.name := by
        have := List.find?_some hfind
        simpa using this
      by_cases hprov : sc0.provisioner = LocalStorageClassProvisioner
      · have hpneq : (sc0.provisioner != LocalStorageClassProvisioner) = false := by
          simp [hprov]
        cases hdel : deleteStorageClass o s sc0 with
        | error sE =>
          have hres : (reconcileLSCDeleteFunc o s).2.2 =
              phaseOrKeep o sE FailedStatusPhase "delete" := by
            simp only [reconcileLSCDeleteFunc, hfind, hpneq, Bool.false_eq_true, if_false, hdel]
          rw [hres, (phaseOrKeep_scs o sE _ _).2.1, deleteStorageClass_err_lsc hdel]
          exact hmark
        | ok s1 =>
          exfalso
          have hres : (reconcileLSCDeleteFunc o s).2.2.scs = s1.scs := by
            simp only [reconcileLSCDeleteFunc, hfind, hpneq, Bool.false_eq_true, if_false, hdel]
            exact deleteTail_state o s1
          rw [hres] at hex
          obtain ⟨u, hu, hun, huprov⟩ := hex
          exact (deleteStorageClass_ok_names hdel u hu) (by rw [hun, ← hname0])
      · have hres : (reconcileLSCDeleteFunc o s).2.2.scs = s.scs :=
          deleteFunc_foreign hfind hprov
        rw [hres] at hex
        obtain ⟨u, hu, hun, huprov⟩ := hex
        have huniq := find?_name_unique hnd hu hun
        rw [hfind] at huniq
        injection huniq with hu0
        rw [hu0] at hprov
        exact absurd huprov hprov

/-- C7 witness: a foreign-provisioner storage class survives a delete
reconcile untouched, and when the derived object's deletion fails the
spec's finalizer is kept. -/
theorem C7_witness :
    exC7sc ∈ (runEventReconcile exC7oracle exC7s).2.2.scs ∧
      LocalStorageClassFinalizerName ∈
        (reconcileLSCDeleteFunc exC7bo exC7bs).2.2.lsc.finalizers := by
  constructor
  · exact C7_provisioner_ownership.1 exC7oracle exC7s exC7sc (by decide) (by decide)
      (by decide) (by decide)
  · exact C7_provisioner_ownership.2 exC7bo exC7bs (by decide) (by decide)
      ⟨{ name := "mine", provisioner := LocalStorageClassProvisioner, lvgParams := some [],
         finalizers := [] }, by decide, by decide, by decide⟩

end SdsLvm
